import Mathlib

/-!
Verification of the KyeroV3-to-ImmoScout24 XML transformer.

This file embeds the transformation core of the repository
(`transformer.py` and `utils.py`) as executable Lean definitions and
proves properties of them.  Python strings are modelled as Lean
`String`s (code-point lists), Python `None` as `Option.none`,
Python `float` values as exact rationals, and raised exceptions as
`Except` errors.  Definitions keep the source names where Lean allows.
-/

/-! ## Python string primitives -/

/-- Whitespace set of Python `str.strip` (ASCII part, which is all the
repository's data exercises). -/
def pyIsSpace (c : Char) : Bool :=
  c = ' ' || c = '\t' || c = '\n' || c = '\r' || c = '\u000B' || c = '\u000C'

/-- Python `str.strip()`: drop leading and trailing whitespace. -/
def pyStrip (s : String) : String :=
  ⟨((s.data.dropWhile pyIsSpace).reverse.dropWhile pyIsSpace).reverse⟩

/-- Python `str.lower()` (ASCII case mapping, which covers the type labels
and flags the code lowercases). -/
def pyLower (s : String) : String := ⟨s.data.map Char.toLower⟩

/-- Python `str.capitalize()`: first character uppercased, the rest
lowercased. -/
def pyCapitalize (s : String) : String :=
  match s.data with
  | [] => ""
  | c :: rest => ⟨Char.toUpper c :: rest.map Char.toLower⟩

/-- Python slicing `s[:n]` (by code points). -/
def pyTake (n : Nat) (s : String) : String := ⟨s.data.take n⟩

/-- Python `s.split(' ')[0]`: the characters before the first space
(the whole string when no space occurs). -/
def splitSpaceHead (s : String) : String := ⟨s.data.takeWhile (fun c => c ≠ ' ')⟩

/-- Python `'sep'.join l` for a given separator. -/
def joinWith (sep : String) : List String → String
  | [] => ""
  | [x] => x
  | x :: y :: xs => x ++ sep ++ joinWith sep (y :: xs)

/-- Auxiliary for `descriptionParagraphs`: Python `s.split('\n\n')`,
a left-to-right non-overlapping split on the two-character blank-line
separator.  `acc` holds the current piece reversed. -/
def splitParAux : List Char → List Char → List (List Char)
  | [], acc => [acc.reverse]
  | '\n' :: '\n' :: rest, acc => acc.reverse :: splitParAux rest []
  | c :: rest, acc => splitParAux rest (c :: acc)

/-- Python `descripcion.split('\n\n')` from the description-overflow
branch of `PropertyXMLBuilder.add_common_elements`. -/
def descriptionParagraphs (s : String) : List String :=
  (splitParAux s.data []).map (fun l => (⟨l⟩ : String))

/-- Python `str.splitlines()` restricted to the line boundaries the
cleaning pipeline can produce (`\n`, `\r\n`, `\r`): split at boundaries,
with no trailing empty piece for a trailing boundary. -/
def splitlinesAux : List Char → List Char → List (List Char)
  | [], acc => if acc.isEmpty then [] else [acc.reverse]
  | '\r' :: '\n' :: rest, acc => acc.reverse :: splitlinesAux rest []
  | '\n' :: rest, acc => acc.reverse :: splitlinesAux rest []
  | '\r' :: rest, acc => acc.reverse :: splitlinesAux rest []
  | c :: rest, acc => splitlinesAux rest (c :: acc)

/-- Python `text.splitlines()`. -/
def pySplitlines (s : String) : List String :=
  (splitlinesAux s.data []).map (fun l => (⟨l⟩ : String))

/-- Auxiliary for `collapseNewlines`; `k` counts pending consecutive
newlines.  A maximal run of `k ≥ 2` newlines is replaced by exactly two,
a run of one is kept: this is `re.sub(r'\n{2,}', '\n\n', text)`. -/
def collapseAux : List Char → Nat → List Char
  | [], k => List.replicate (min k 2) '\n'
  | '\n' :: rest, k => collapseAux rest (k + 1)
  | c :: rest, k => List.replicate (min k 2) '\n' ++ c :: collapseAux rest 0

/-- Python `re.sub(r'\n{2,}', '\n\n', text)` from `clean_description`. -/
def collapseNewlines (s : String) : String := ⟨collapseAux s.data 0⟩

/-- Python `text.replace('&#13;', '\n')` from `clean_description`
(left-to-right, non-overlapping). -/
def replaceCR13 : List Char → List Char
  | '&' :: '#' :: '1' :: '3' :: ';' :: rest => '\n' :: replaceCR13 rest
  | c :: rest => c :: replaceCR13 rest
  | [] => []

/-- Modelled from the spec: the entity-unescaping step of the cleaning
routine ("unescape HTML entities (including numeric character
references)").  Python's `html.unescape` lives outside `src/`; this
model decodes the named and numeric forms the repository's
documentation mentions and is the identity on ampersand-free text,
which is the only case the statements below exercise. -/
def htmlUnescapeAux : List Char → List Char
  | [] => []
  | '&' :: 'a' :: 'm' :: 'p' :: ';' :: rest => '&' :: htmlUnescapeAux rest
  | '&' :: 'l' :: 't' :: ';' :: rest => '<' :: htmlUnescapeAux rest
  | '&' :: 'g' :: 't' :: ';' :: rest => '>' :: htmlUnescapeAux rest
  | '&' :: 'n' :: 'b' :: 's' :: 'p' :: ';' :: rest => ' ' :: htmlUnescapeAux rest
  | '&' :: '#' :: '1' :: '3' :: ';' :: rest => '\r' :: htmlUnescapeAux rest
  | c :: rest => c :: htmlUnescapeAux rest

def htmlUnescape (s : String) : String := ⟨htmlUnescapeAux s.data⟩

/-- Modelled from the spec: the HTML-fragment text-extraction step of
`clean_description` ("parse as a permissive HTML fragment, extract text
nodes with block-level elements treated as line separators, fall back to
the un-parsed entity-decoded string on any parse failure").  The lxml
parser is outside `src/`; on markup-free input (no angle brackets) the
extraction returns the text unchanged, which is the only case the
statements below exercise, and markup-bearing input is returned
unchanged as in the documented parse-failure fallback. -/
def htmlTextExtract (t : String) : String := t

/-- `utils.clean_description`: the shared text-cleaning routine.
Steps follow the source: falsy guard, entity unescape, `&#13;`
replacement, HTML text extraction, newline collapsing, per-line strip,
overall strip. -/
def clean_description (text : Option String) : String :=
  match text with
  | none => "No description provided"
  | some t =>
    if t = "" then "No description provided"
    else
      let t1 := htmlUnescape t
      let t2 := (⟨replaceCR13 t1.data⟩ : String)
      let t3 := htmlTextExtract t2
      let t4 := collapseNewlines t3
      let lines := (pySplitlines t4).map pyStrip
      pyStrip (joinWith "\n" lines)

/-! ## Numeric parsing (Python `float()` / `int()` on strings) -/

def digitsToNat (l : List Char) : Nat :=
  l.foldl (fun a c => a * 10 + (c.toNat - '0'.toNat)) 0

/-- Modelled from Python `float()` on strings: optional surrounding
whitespace and sign, decimal digits with an optional fractional part.
Exponents, `inf`/`nan` and underscore grouping are not modelled (no
statement below depends on them); unparseable input gives `none`
(Python raises `ValueError`). -/
def pyFloat (s : String) : Option ℚ :=
  let cs := (pyStrip s).data
  let signed : ℚ × List Char :=
    match cs with
    | '-' :: rest => (-1, rest)
    | '+' :: rest => (1, rest)
    | _ => (1, cs)
  let sign := signed.1
  let body := signed.2
  let intPart := body.takeWhile Char.isDigit
  let rest := body.dropWhile Char.isDigit
  match rest with
  | [] => if intPart.isEmpty then none else some (sign * (digitsToNat intPart : ℚ))
  | '.' :: frac =>
    if frac.all Char.isDigit && !(intPart.isEmpty && frac.isEmpty) then
      some (sign * ((digitsToNat intPart : ℚ) + (digitsToNat frac : ℚ) / (10 ^ frac.length)))
    else none
  | _ => none

/-- Modelled from Python `int()` on strings: optional surrounding
whitespace and sign followed by decimal digits (underscore grouping not
modelled); unparseable input gives `none` (Python raises). -/
def pyInt (s : String) : Option Int :=
  let cs := (pyStrip s).data
  let signed : Int × List Char :=
    match cs with
    | '-' :: rest => (-1, rest)
    | '+' :: rest => (1, rest)
    | _ => (1, cs)
  if !signed.2.isEmpty && signed.2.all Char.isDigit then
    some (signed.1 * (digitsToNat signed.2 : Int))
  else none

/-- The room-count coercion of `HouseBuyBuilder.build_xml` /
`ApartmentBuyBuilder.build_xml`: `beds = data.get(...) or 0` followed by
`int(beds)` with `except (TypeError, ValueError): 0`. -/
def toIntOr0 (v : Option String) : Int :=
  match v with
  | none => 0
  | some s => if s = "" then 0 else (pyInt s).getD 0

/-- `total_rooms = beds_num + baths_num` from the residential builders. -/
def roomsCount (beds baths : Option String) : Int := toIntOr0 beds + toIntOr0 baths

/-! ## The description-overflow split (`add_common_elements`, overflow branch) -/

/-- The greedy paragraph-packing loop of `add_common_elements`:
`current_length` is the running content length, `first` and `second`
the two accumulating segments.  A paragraph `p` joins `first` when
`current_length + len(p) + len(first) * 2 <= 2000`, else it goes to
`second`; the loop never stops early. -/
def greedySplitAux : List String → Nat → List String → List String → List String × List String
  | [], _, first, second => (first, second)
  | p :: ps, curr, first, second =>
    if curr + p.length + first.length * 2 ≤ 2000 then
      greedySplitAux ps (curr + p.length) (first ++ [p]) second
    else
      greedySplitAux ps curr first (second ++ [p])

/-- The overflow split of the cleaned description into the
`descriptionNote` segment and the `otherNote` remainder. -/
def greedySplit (paragraphs : List String) : List String × List String :=
  greedySplitAux paragraphs 0 [] []

/-! ## XML model and `add_element` -/

/-- An XML element: tag, optional text content, child elements.
Namespace prefixes and CDATA wrapping carry no structure the verified
statements depend on and are not modelled. -/
inductive XmlNode where
  | elem (tag : String) (text : Option String) (children : List XmlNode)

def XmlNode.tag : XmlNode → String
  | .elem t _ _ => t

def XmlNode.text : XmlNode → Option String
  | .elem _ x _ => x

def XmlNode.children : XmlNode → List XmlNode
  | .elem _ _ c => c

/-- A Python value passed to `add_element` as `text`: the builders call
it with strings, booleans, integers and floats. -/
inductive PyVal where
  | vStr (s : String)
  | vBool (b : Bool)
  | vInt (n : Int)
  | vRat (q : ℚ)

/-- Modelled from Python `repr`/`str` of a float: no verified statement
depends on this rendering, so the exact binary-float digit generation is
not reproduced. -/
def pyFloatRepr (q : ℚ) : String := toString q

/-- Two-digit zero padding for `formatFixed2`. -/
def pad2 (k : Nat) : String := if k < 10 then "0" ++ toString k else toString k

/-- Modelled from Python `f"{x:.2f}"`: fixed-point rendering with two
decimals.  Rounding is done on the exact rational (binary-float
artifacts are not modelled); no verified statement depends on this
rendering. -/
def formatFixed2 (q : ℚ) : String :=
  let n : Int := round (q * 100)
  let m : Nat := n.natAbs
  (if n < 0 then "-" else "") ++ toString (m / 100) ++ "." ++ pad2 (m % 100)

/-- Python `str()` of the values `add_element` receives. -/
def pyStr : PyVal → String
  | .vStr s => s
  | .vBool b => if b then "True" else "False"
  | .vInt n => toString n
  | .vRat q => pyFloatRepr q

/-- `utils.VALID_LISTED_ONLY_VALUES`. -/
def VALID_LISTED_ONLY_VALUES : List String := ["YES", "NO", "NOT_APPLICABLE"]

/-- `utils.VALID_UTILIZATION_TRADE_TYPES`. -/
def VALID_UTILIZATION_TRADE_TYPES : List String :=
  ["AGRICULTURE_FORESTRY", "LEISURE", "NO_INFORMATION"]

/-- `utils.VALID_COMMERCIALIZATION_TYPES`. -/
def VALID_COMMERCIALIZATION_TYPES : List String := ["BUY", "LEASE"]

/-- Python `text in list_of_strings` for a value of any type: list
membership under `==`, which only a string can satisfy against a list
of strings. -/
def pyValInStrs (t : PyVal) (l : List String) : Bool :=
  match t with
  | .vStr s => l.contains s
  | _ => false

/-- `utils.add_element`: returns `none` when `text is None` (no element
is added), otherwise the created child element, with the enumerated-tag
fixups and boolean lowering of the source. -/
def add_element (tag : String) (text : Option PyVal) : Option XmlNode :=
  match text with
  | none => none
  | some t0 =>
    let t : PyVal :=
      if tag = "listedOnlyOnIs24" then
        match t0 with
        | .vBool b => .vStr (if b then "YES" else "NO")
        | v => if pyValInStrs v VALID_LISTED_ONLY_VALUES then v else .vStr "NO"
      else if tag = "utilizationTradeSite" then
        if pyValInStrs t0 VALID_UTILIZATION_TRADE_TYPES then t0 else .vStr "NO_INFORMATION"
      else if tag = "commercializationType" then
        if pyValInStrs t0 VALID_COMMERCIALIZATION_TYPES then t0 else .vStr "BUY"
      else
        match t0 with
        | .vBool b => .vStr (toString b)
        | v => v
    some (XmlNode.elem tag (some (pyStr t)) [])

/-- List of the zero or one elements `add_element` produced. -/
def optList : Option XmlNode → List XmlNode
  | none => []
  | some n => [n]

/-! ## The normalized mapping (property dict) -/

/-- The normalized mapping produced by `transformar_xml` and consumed by
the builders.  Fields mirror the dict keys; `none` stands for a key that
is absent or holds Python `None` (the two are indistinguishable to the
builders' `data.get` reads for the mapper-produced dicts this models).
The four area/price fields and the tradeSite numeric extras hold exact
rationals standing for the parsed Python floats. -/
structure Mapping where
  type : Option String := none
  externalId : Option String := none
  title : Option String := none
  creationDate : Option String := none
  lastModificationDate : Option String := none
  street : Option String := none
  houseNumber : Option String := none
  postcode : Option String := none
  city : Option String := none
  country : Option String := none
  province : Option String := none
  latitude : Option String := none
  longitude : Option String := none
  showAddress : Option Bool := none
  descriptionNote : Option String := none
  furnishingNote : Option String := none
  locationNote : Option String := none
  otherNote : Option String := none
  buildingType : Option String := none
  apartmentType : Option String := none
  commercializationType : Option String := none
  utilizationTradeSite : Option String := none
  recommendedUseTypes : Option (List String) := none
  tenancy : Option String := none
  minDivisible : Option ℚ := none
  freeFrom : Option String := none
  shortTermConstructible : Option Bool := none
  buildingPermission : Option Bool := none
  demolition : Option Bool := none
  siteDevelopmentType : Option String := none
  siteConstructibleType : Option String := none
  grz : Option ℚ := none
  gfz : Option ℚ := none
  leaseInterval : Option String := none
  numberOfBedRooms : Option String := none
  numberOfBathRooms : Option String := none
  livingSpace : Option ℚ := none
  plotArea : Option ℚ := none
  totalFloorSpace : Option ℚ := none
  netFloorSpace : Option ℚ := none
  value : Option ℚ := none
  currency : Option String := none
  marketingType : Option String := none
  priceIntervalType : Option String := none
  hasCourtage : Option String := none
  courtage : Option String := none
  courtageNote : Option String := none

/-- Raised Python exceptions, by class. -/
inductive PyErr where
  | valueError
  | typeError
  | attributeError
deriving DecidableEq

/-- The recurring Python pattern `float(x) if x else None`: a missing or
empty value gives `None`, a non-empty unparseable one raises
`ValueError`. -/
def pyFloatIfTruthy (v : Option String) : Except PyErr (Option ℚ) :=
  match v with
  | none => .ok none
  | some s =>
    if s = "" then .ok none
    else
      match pyFloat s with
      | some q => .ok (some q)
      | none => .error PyErr.valueError

/-- Python float truthiness of `lat or lon`: `None` and `0.0` are falsy. -/
def floatTruthy : Option ℚ → Bool
  | none => false
  | some q => q ≠ 0

/-- The postcode space-truncation of `add_common_elements`:
`postcode.split(' ')[0]` applied only when the value contains a space. -/
def postcodeFix (s : String) : String :=
  if s.contains ' ' then splitSpaceHead s else s

/-! ## `PropertyXMLBuilder.add_common_elements` -/

/-- The `address` sub-tree built by `add_common_elements`, given the
already-parsed coordinate floats. -/
def addressNode (data : Mapping) (lat lon : Option ℚ) : XmlNode :=
  XmlNode.elem "address" none (
    optList (add_element "street" (data.street.map PyVal.vStr)) ++
    optList (add_element "houseNumber" (some (PyVal.vStr (data.houseNumber.getD "0")))) ++
    optList (add_element "postcode" (some (PyVal.vStr (postcodeFix (data.postcode.getD "29000"))))) ++
    optList (add_element "city"
      (match data.city with
       | some c => if c = "" then none else some (PyVal.vStr (pyCapitalize c))
       | none => none)) ++
    [XmlNode.elem "internationalCountryRegion" none (
      optList (add_element "country" (some (PyVal.vStr (data.country.getD "ESP")))) ++
      optList (add_element "region" (some (PyVal.vStr (data.province.getD "Unknown")))))] ++
    (if floatTruthy lat || floatTruthy lon then
      [XmlNode.elem "wgs84Coordinate" none (
        optList (add_element "latitude" (lat.map PyVal.vRat)) ++
        optList (add_element "longitude" (lon.map PyVal.vRat)))]
     else []))

/-- The `descriptionNote` / overflow-`otherNote` emission of
`add_common_elements` for the cleaned description. -/
def descNodes (descripcion : String) : List XmlNode :=
  if 2000 < descripcion.length then
    let paragraphs := descriptionParagraphs descripcion
    let fs := greedySplit paragraphs
    optList (add_element "descriptionNote" (some (PyVal.vStr (joinWith "\n\n" fs.1)))) ++
    (if fs.2.isEmpty then []
     else optList (add_element "otherNote"
        (some (PyVal.vStr (pyTake 2000 (joinWith "\n\n" fs.2))))))
  else
    optList (add_element "descriptionNote" (some (PyVal.vStr descripcion)))

/-- The full child list emitted by `add_common_elements`, given the
parsed coordinates. -/
def commonNodes (data : Mapping) (lat lon : Option ℚ) : List XmlNode :=
  optList (add_element "externalId" (data.externalId.map PyVal.vStr)) ++
  optList (add_element "title" (data.title.map PyVal.vStr)) ++
  optList (add_element "creationDate" (data.creationDate.map PyVal.vStr)) ++
  optList (add_element "lastModificationDate" (data.lastModificationDate.map PyVal.vStr)) ++
  [addressNode data lat lon] ++
  descNodes (clean_description data.descriptionNote) ++
  optList (add_element "furnishingNote" (data.furnishingNote.map PyVal.vStr)) ++
  optList (add_element "locationNote" (data.locationNote.map PyVal.vStr)) ++
  optList (add_element "otherNote" (data.otherNote.map PyVal.vStr)) ++
  optList (add_element "showAddress" (some (PyVal.vBool (data.showAddress.getD false))))

/-- `PropertyXMLBuilder.add_common_elements`.  The only failing steps
are the two coordinate parses (`float(data.get('latitude'))` etc.);
they are sequenced first, which is value-equivalent to the source order
because a parse failure aborts the whole build and no earlier emission
escapes it. -/
def add_common_elements (data : Mapping) : Except PyErr (List XmlNode) := do
  let lat ← pyFloatIfTruthy data.latitude
  let lon ← pyFloatIfTruthy data.longitude
  Except.ok (commonNodes data lat lon)

/-! ## The four schema-builder variants -/

/-- The four builder classes, as selected by `dict_a_xml`. -/
inductive PropVariant where
  | houseBuy
  | apartmentBuy
  | livingBuySite
  | tradeSite
deriving DecidableEq

/-- Root element name (and expected `data['type']`) of each variant. -/
def variantTag : PropVariant → String
  | .houseBuy => "houseBuy"
  | .apartmentBuy => "apartmentBuy"
  | .livingBuySite => "livingBuySite"
  | .tradeSite => "tradeSite"

/-- The `required_fields` list of each `build_xml`. -/
def requiredFields : PropVariant → List String
  | .houseBuy => ["externalId", "title", "value", "livingSpace", "plotArea"]
  | .apartmentBuy => ["externalId", "title", "value", "livingSpace"]
  | .livingBuySite => ["externalId", "title", "value", "plotArea", "commercializationType"]
  | .tradeSite =>
    ["externalId", "title", "value", "plotArea", "commercializationType", "utilizationTradeSite"]

/-- Dict-style read of the fields `validate_required_fields` inspects. -/
def mget (m : Mapping) : String → Option PyVal
  | "externalId" => m.externalId.map PyVal.vStr
  | "title" => m.title.map PyVal.vStr
  | "value" => m.value.map PyVal.vRat
  | "livingSpace" => m.livingSpace.map PyVal.vRat
  | "plotArea" => m.plotArea.map PyVal.vRat
  | "commercializationType" => m.commercializationType.map PyVal.vStr
  | "utilizationTradeSite" => m.utilizationTradeSite.map PyVal.vStr
  | _ => none

/-- `PropertyXMLBuilder.validate_required_fields`: raises `ValueError`
at the first required field that is absent or `None`. -/
def validate_required_fields (data : Mapping) : List String → Except PyErr Unit
  | [] => .ok ()
  | f :: fs =>
    if (mget data f).isSome then validate_required_fields data fs
    else .error PyErr.valueError

/-- The `price` sub-tree shared by all four variants. -/
def priceNode (data : Mapping) : XmlNode :=
  XmlNode.elem "price" none (
    optList (add_element "value" (data.value.map PyVal.vRat)) ++
    optList (add_element "currency" (some (PyVal.vStr (data.currency.getD "EUR")))) ++
    optList (add_element "marketingType" (some (PyVal.vStr (data.marketingType.getD "PURCHASE")))))

/-- The `courtage` sub-tree; only `TradeSiteBuilder` adds the fee value. -/
def courtageNode (data : Mapping) (withFee : Bool) : XmlNode :=
  XmlNode.elem "courtage" none (
    optList (add_element "hasCourtage" (some (PyVal.vStr (data.hasCourtage.getD "NOT_APPLICABLE")))) ++
    (if withFee then optList (add_element "courtage" (data.courtage.map PyVal.vStr)) else []))

/-- Python `f"{x:.2f}"` on a required area field: formatting `None`
raises `TypeError` (never reached after validation). -/
def fmtReq (x : Option ℚ) : Except PyErr String :=
  match x with
  | some q => .ok (formatFixed2 q)
  | none => .error PyErr.typeError

/-- The variant-specific elements each `build_xml` appends after the
common block, in source order, given the already-formatted area
strings (`ls` for livingSpace, `pa` for plotArea; a variant that does
not emit one of them ignores the argument). -/
def variantNodesCore (v : PropVariant) (data : Mapping) (ls pa : String) : List XmlNode :=
  match v with
  | .houseBuy =>
    optList (add_element "buildingType" (some (PyVal.vStr (data.buildingType.getD "NO_INFORMATION")))) ++
    optList (add_element "numberOfBedRooms" (data.numberOfBedRooms.map PyVal.vStr)) ++
    optList (add_element "numberOfBathRooms" (data.numberOfBathRooms.map PyVal.vStr)) ++
    [priceNode data] ++
    optList (add_element "livingSpace" (some (PyVal.vStr ls))) ++
    optList (add_element "plotArea" (some (PyVal.vStr pa))) ++
    optList (add_element "numberOfRooms"
      (some (PyVal.vInt (roomsCount data.numberOfBedRooms data.numberOfBathRooms)))) ++
    [courtageNode data false]
  | .apartmentBuy =>
    optList (add_element "apartmentType" (some (PyVal.vStr (data.apartmentType.getD "NO_INFORMATION")))) ++
    optList (add_element "numberOfBedRooms" (data.numberOfBedRooms.map PyVal.vStr)) ++
    optList (add_element "numberOfBathRooms" (data.numberOfBathRooms.map PyVal.vStr)) ++
    [priceNode data] ++
    optList (add_element "livingSpace" (some (PyVal.vStr ls))) ++
    optList (add_element "numberOfRooms"
      (some (PyVal.vInt (roomsCount data.numberOfBedRooms data.numberOfBathRooms)))) ++
    [courtageNode data false]
  | .livingBuySite =>
    optList (add_element "commercializationType" (some (PyVal.vStr (data.commercializationType.getD "BUY")))) ++
    [priceNode data] ++
    optList (add_element "plotArea" (some (PyVal.vStr pa))) ++
    [courtageNode data false]
  | .tradeSite =>
    optList (add_element "commercializationType" (some (PyVal.vStr (data.commercializationType.getD "BUY")))) ++
    optList (add_element "utilizationTradeSite" (some (PyVal.vStr (data.utilizationTradeSite.getD "LEISURE")))) ++
    [priceNode data] ++
    optList (add_element "plotArea" (some (PyVal.vStr pa))) ++
    [courtageNode data true]

/-- The fallible wrapper around `variantNodesCore`: the `f"{...:.2f}"`
formats of the required area fields are the only failing steps. -/
def variantNodes (v : PropVariant) (data : Mapping) : Except PyErr (List XmlNode) :=
  match v with
  | .houseBuy => do
    let ls ← fmtReq data.livingSpace
    let pa ← fmtReq data.plotArea
    Except.ok (variantNodesCore .houseBuy data ls pa)
  | .apartmentBuy => do
    let ls ← fmtReq data.livingSpace
    Except.ok (variantNodesCore .apartmentBuy data ls "")
  | .livingBuySite => do
    let pa ← fmtReq data.plotArea
    Except.ok (variantNodesCore .livingBuySite data "" pa)
  | .tradeSite => do
    let pa ← fmtReq data.plotArea
    Except.ok (variantNodesCore .tradeSite data "" pa)

/-- `build_xml` of the selected builder class, as dispatched by
`dict_a_xml`: `Except.ok none` is the Python `return None` for a
mismatched type; a raised error is `Except.error`.  `crear_root`
cannot fail here since every `variantTag` is in
`SUPPORTED_PROPERTY_TYPES`.  Any exception inside the builder's `try`
block is re-raised as `TypeError`. -/
def build_xml (v : PropVariant) (data : Mapping) : Except PyErr (Option XmlNode) :=
  if data.type ≠ some (variantTag v) then Except.ok none
  else
    match validate_required_fields data (requiredFields v) with
    | .error e => .error e
    | .ok _ =>
      match (do
          let common ← add_common_elements data
          let rest ← variantNodes v data
          Except.ok (common ++ rest) : Except PyErr (List XmlNode)) with
      | .error _ => .error PyErr.typeError
      | .ok children => .ok (some (XmlNode.elem (variantTag v) none children))

/-! ## The Extractor/Mapper (`transformer.py`) -/

/-- `transformer.TYPE_MAPPING` (note the one uppercase key
`'Commercial'`, kept verbatim from the source). -/
def TYPE_MAPPING : List (String × String) := [
  ("villa", "houseBuy"),
  ("apartment", "apartmentBuy"),
  ("land", "livingBuySite"),
  ("penthouse", "apartmentBuy"),
  ("townhouse", "houseBuy"),
  ("country house", "houseBuy"),
  ("residential home", "houseBuy"),
  ("studio", "apartmentBuy"),
  ("commercial premises", "tradeSite"),
  ("shop", "tradeSite"),
  ("restaurant", "tradeSite"),
  ("bar", "tradeSite"),
  ("aparthotel", "tradeSite"),
  ("hostel", "tradeSite"),
  ("office", "tradeSite"),
  ("apartment complex", "tradeSite"),
  ("car park", "tradeSite"),
  ("farm", "livingBuySite"),
  ("Commercial", "tradeSite"),
  ("storage", "tradeSite"),
  ("warehouse", "tradeSite"),
  ("ruin", "houseBuy"),
  ("equestrian facility", "tradeSite"),
  ("retail property", "tradeSite"),
  ("marine property", "tradeSite"),
  ("nightclub", "tradeSite"),
  ("bed and breakfast", "tradeSite"),
  ("guest house", "tradeSite")]

/-- `transformer.BUILD_MAPPING`. -/
def BUILD_MAPPING : List (String × String) := [
  ("villa", "VILLA"),
  ("penthouse", "APARTMENT"),
  ("townhouse", "SINGLE_FAMILY_HOUSE"),
  ("country house", "SINGLE_FAMILY_HOUSE"),
  ("residential home", "NO_INFORMATION"),
  ("apartment", "APARTMENT"),
  ("studio", "STUDIO"),
  ("ruin", "NO_INFORMATION")]

/-- `transformer.RECOMMENDED_USE_MAPPING`. -/
def RECOMMENDED_USE_MAPPING : List (String × String) := [
  ("commercial premises", "RETAIL"),
  ("shop", "RETAIL"),
  ("retail property", "RETAIL"),
  ("Commercial", "RETAIL"),
  ("storage", "RETAIL"),
  ("warehouse", "RETAIL"),
  ("restaurant", "GASTRONOMY"),
  ("bar", "GASTRONOMY"),
  ("aparthotel", "GASTRONOMY"),
  ("hostel", "GASTRONOMY"),
  ("nightclub", "GASTRONOMY"),
  ("bed and breakfast", "GASTRONOMY"),
  ("guest house", "GASTRONOMY"),
  ("office", "OFFICE"),
  ("apartment complex", "OTHER"),
  ("car park", "OTHER"),
  ("equestrian facility", "OTHER"),
  ("marine property", "OTHER")]

/-- `transformer.REGION_MAPPING`. -/
def REGION_MAPPING : List (String × String) := [
  ("Málaga", "Andalusien"),
  ("Cádiz", "Andalusien"),
  ("Malaga", "Andalusien"),
  ("Cadiz", "Andalusien")]

/-- Python `dict.get(k)` on the static tables. -/
def tableGet (table : List (String × String)) (k : String) : Option String :=
  match table.find? (fun p => p.1 = k) with
  | some p => some p.2
  | none => none

/-- The distinct values of `TYPE_MAPPING` (`TYPE_MAPPING.values()`
up to the repetition Python's membership test ignores). -/
def TYPE_MAPPING_values : List String :=
  ["houseBuy", "apartmentBuy", "livingBuySite", "tradeSite"]

/-- The `location` sub-tree of a source listing. -/
structure Location where
  latitude : Option String := none
  longitude : Option String := none

/-- The `surface_area` sub-tree of a source listing. -/
structure SurfaceArea where
  built : Option String := none
  plot : Option String := none
  total : Option String := none
  net : Option String := none

/-- The `desc` sub-tree of a source listing (only its `en` child is
read). -/
structure DescBlock where
  en : Option String := none

/-- One `<property>` record of the parsed source document; every field
is the `findtext` result for the element the mapper reads (absent
element = `none`).  The `geo_hierarchy` and `api_search_data` sub-trees
and `group_number`, whose extraction cannot fail and which no verified
statement reads, are not modelled. -/
structure Listing where
  type : Option String := none
  ref : Option String := none
  town : Option String := none
  house_number : Option String := none
  postcode : Option String := none
  province : Option String := none
  location : Option Location := none
  show_address : Option String := none
  descBlock : Option DescBlock := none
  description : Option String := none
  furnishing_note : Option String := none
  location_note : Option String := none
  other_note : Option String := none
  commercialization_type : Option String := none
  utilization_trade_site : Option String := none
  tenancy : Option String := none
  min_divisible : Option String := none
  free_from : Option String := none
  short_term_constructible : Option String := none
  building_permission : Option String := none
  demolition : Option String := none
  site_development_type : Option String := none
  site_constructible_type : Option String := none
  grz : Option String := none
  gfz : Option String := none
  lease_interval : Option String := none
  beds : Option String := none
  baths : Option String := none
  surface_area : Option SurfaceArea := none
  price : Option String := none
  currency : Option String := none
  marketing_type : Option String := none
  price_interval_type : Option String := none
  courtage_has : Option String := none
  courtage_fee : Option String := none
  courtage_note : Option String := none

/-- Type resolution of `transformar_xml`:
`TYPE_MAPPING.get(tipo_propiedad_input.strip().lower(), None) if
tipo_propiedad_input else None`. -/
def resolveType (tipo_input : Option String) : Option String :=
  match tipo_input with
  | none => none
  | some s => if s = "" then none else tableGet TYPE_MAPPING (pyLower (pyStrip s))

/-- The recurring mapper pattern
`clean_description(prop.findtext(k)) if prop.findtext(k) else None`. -/
def truthyClean (v : Option String) : Option String :=
  match v with
  | none => none
  | some s => if s = "" then none else some (clean_description (some s))

/-- Python truthiness test `value.lower() == 'true'` with default. -/
def boolField (v : Option String) (dflt : String) : Bool :=
  pyLower (v.getD dflt) = "true"

/-- The fallible values extracted while mapping one listing, in the
order the source evaluates them: town capitalization (raises
`AttributeError` on a missing town), the tradeSite float extras, the
surface areas, and the price. -/
structure ExtractedNums where
  ciudad : String
  minDivisible : Option ℚ
  grzV : Option ℚ
  gfzV : Option ℚ
  livingSpace : Option ℚ
  plotArea : Option ℚ
  totalFloorSpace : Option ℚ
  netFloorSpace : Option ℚ
  value : ℚ

/-- The extraction steps of `transformar_xml` that can raise, in source
order.  `tp` is the already-resolved target type. -/
def extractNums (p : Listing) (tp : String) : Except PyErr ExtractedNums := do
  -- ciudad = prop.findtext('town').capitalize() or ''  (AttributeError on None)
  let ciudad ← match p.town with
    | none => Except.error PyErr.attributeError
    | some t => Except.ok (pyCapitalize t)
  -- tradeSite extras: float(findtext(k, 0)) if findtext(k) else None
  let minDivisible ← if tp = "tradeSite" then pyFloatIfTruthy p.min_divisible else Except.ok none
  let grzV ← if tp = "tradeSite" then pyFloatIfTruthy p.grz else Except.ok none
  let gfzV ← if tp = "tradeSite" then pyFloatIfTruthy p.gfz else Except.ok none
  -- surface areas; with no surface_area sub-tree the fallback
  -- findtext('surface_area/total', 0) can only yield its default, so
  -- plotArea is 0 (and total/net copy it)
  let areas ← match p.surface_area with
    | some sa => do
      let ls ← pyFloatIfTruthy sa.built
      let pa ← pyFloatIfTruthy sa.plot
      let tf ← pyFloatIfTruthy sa.total
      let nf ← pyFloatIfTruthy sa.net
      Except.ok (ls, pa, tf, nf)
    | none => Except.ok (none, some (0 : ℚ), some (0 : ℚ), some (0 : ℚ))
  -- value = float(prop.findtext('price', 0))
  let value ← match p.price with
    | none => Except.ok (0 : ℚ)
    | some s =>
      match pyFloat s with
      | some q => Except.ok q
      | none => Except.error PyErr.valueError
  Except.ok {
    ciudad := ciudad
    minDivisible := minDivisible
    grzV := grzV
    gfzV := gfzV
    livingSpace := areas.1
    plotArea := areas.2.1
    totalFloorSpace := areas.2.2.1
    netFloorSpace := areas.2.2.2
    value := value }

/-- The pure assembly of one mapping from a listing, its resolved type
and the extracted fallible values; field for field as in
`transformar_xml`. -/
def mkMapping (p : Listing) (tipo_propiedad : String) (e : ExtractedNums) : Mapping :=
  -- tipo = prop.findtext('type').capitalize() or ''  (the or-branch is
  -- the identity on strings); the type label is non-empty here
  let tipo := pyCapitalize (p.type.getD "")
  let ciudad := e.ciudad
  let residential := tipo_propiedad = "houseBuy" || tipo_propiedad = "apartmentBuy"
  let description_text : Option String :=
    match p.descBlock with
    | some d => d.en
    | none => p.description
  { type := some tipo_propiedad
    externalId := p.ref
    title := some (pyStrip (pyStrip tipo ++ " in " ++ pyStrip ciudad))
    street := some (pyStrip ("Street in " ++ pyStrip ciudad))
    houseNumber := some (p.house_number.getD "0")
    postcode := some (postcodeFix (p.postcode.getD "29000"))
    city := p.town
    country := some "ESP"
    province := some (match p.province with
      | none => "Unknown"
      | some pr => (tableGet REGION_MAPPING pr).getD pr)
    latitude := match p.location with
      | some loc => loc.latitude
      | none => none
    longitude := match p.location with
      | some loc => loc.longitude
      | none => none
    showAddress := some (boolField p.show_address "true")
    descriptionNote := some (match description_text with
      | some dt =>
        if dt = "" then clean_description (some (pyCapitalize tipo ++ ": No description provided"))
        else clean_description (some (pyCapitalize tipo ++ ": " ++ htmlUnescape dt))
      | none => clean_description (some (pyCapitalize tipo ++ ": No description provided")))
    furnishingNote := truthyClean p.furnishing_note
    locationNote := truthyClean p.location_note
    otherNote := truthyClean p.other_note
    buildingType :=
      if tipo_propiedad = "houseBuy" then
        some ((tableGet BUILD_MAPPING (pyLower (pyStrip (p.type.getD "")))).getD "NO_INFORMATION")
      else none
    apartmentType :=
      if tipo_propiedad = "apartmentBuy" then
        some ((tableGet BUILD_MAPPING (pyLower (pyStrip (p.type.getD "")))).getD "NO_INFORMATION")
      else none
    commercializationType :=
      if tipo_propiedad = "livingBuySite" then some "BUY"
      else if tipo_propiedad = "tradeSite" then some (p.commercialization_type.getD "BUY")
      else none
    utilizationTradeSite :=
      if tipo_propiedad = "tradeSite" then some (p.utilization_trade_site.getD "LEISURE") else none
    recommendedUseTypes :=
      if tipo_propiedad = "tradeSite" then
        some [(tableGet RECOMMENDED_USE_MAPPING (pyLower (pyStrip (p.type.getD "")))).getD "NO_INFORMATION"]
      else none
    tenancy := if tipo_propiedad = "tradeSite" then p.tenancy else none
    minDivisible := if tipo_propiedad = "tradeSite" then e.minDivisible else none
    freeFrom := if tipo_propiedad = "tradeSite" then p.free_from else none
    shortTermConstructible :=
      if tipo_propiedad = "tradeSite" then some (boolField p.short_term_constructible "false") else none
    buildingPermission :=
      if tipo_propiedad = "tradeSite" then some (boolField p.building_permission "false") else none
    demolition :=
      if tipo_propiedad = "tradeSite" then some (boolField p.demolition "false") else none
    siteDevelopmentType :=
      if tipo_propiedad = "tradeSite" then some (p.site_development_type.getD "NO_INFORMATION") else none
    siteConstructibleType :=
      if tipo_propiedad = "tradeSite" then some (p.site_constructible_type.getD "NO_INFORMATION") else none
    grz := if tipo_propiedad = "tradeSite" then e.grzV else none
    gfz := if tipo_propiedad = "tradeSite" then e.gfzV else none
    leaseInterval := if tipo_propiedad = "tradeSite" then some (p.lease_interval.getD "NO_INFORMATION") else none
    numberOfBedRooms := if residential then p.beds else none
    numberOfBathRooms := if residential then p.baths else none
    livingSpace := e.livingSpace
    plotArea := e.plotArea
    totalFloorSpace := e.totalFloorSpace
    netFloorSpace := e.netFloorSpace
    value := some e.value
    currency := some (p.currency.getD "EUR")
    marketingType := some (p.marketing_type.getD "PURCHASE")
    priceIntervalType := p.price_interval_type
    hasCourtage := some (p.courtage_has.getD "NOT_APPLICABLE")
    courtage := p.courtage_fee
    courtageNote := truthyClean p.courtage_note }

/-- One iteration of the `for prop in root.findall('property')` loop:
`ok none` is the `continue` for an unsupported or missing type, an
error is an exception escaping the iteration. -/
def extractListing (p : Listing) : Except PyErr (Option Mapping) :=
  match resolveType p.type with
  | none => .ok none
  | some tipo_propiedad =>
    if TYPE_MAPPING_values.contains tipo_propiedad then
      (extractNums p tipo_propiedad).map (fun e => some (mkMapping p tipo_propiedad e))
    else .ok none

/-- The whole listing loop: the source has no per-listing handler, so
the first exception escapes to the document-level handler. -/
def runAll : List Listing → Except PyErr (List Mapping)
  | [] => .ok []
  | p :: ps => do
    let m? ← extractListing p
    let rest ← runAll ps
    Except.ok (match m? with
      | some m => m :: rest
      | none => rest)

/-- `transformer.transformar_xml` on an already-parsed document (a list
of `<property>` records): the whole loop runs inside one `try`, and any
exception makes the function return the empty list. -/
def transformar_xml (props : List Listing) : List Mapping :=
  match runAll props with
  | .ok ms => ms
  | .error _ => []

/-! ## Observation helpers on emitted documents -/

/-- The texts of the direct children with the given tag, in order. -/
def elemTexts (nodes : List XmlNode) (t : String) : List String :=
  nodes.filterMap (fun n => if n.tag = t then some (n.text.getD "") else none)

/-- How many direct children carry the given tag. -/
def countTag (nodes : List XmlNode) (t : String) : Nat := (elemTexts nodes t).length

/-- Does some `address` child contain a `wgs84Coordinate` block? -/
def hasCoordBlock (nodes : List XmlNode) : Bool :=
  nodes.any (fun n => n.tag = "address" && n.children.any (fun w => w.tag = "wgs84Coordinate"))

/-- Python truthiness of `float(v)` for an optional string field: the
field is present, non-empty, and parses to a non-zero float. -/
def coordTruthy (v : Option String) : Bool :=
  match v with
  | none => false
  | some s =>
    if s = "" then false
    else
      match pyFloat s with
      | some q => q ≠ 0
      | none => false

/-- Non-empty unparseable value: `float(v)` raises. -/
def floatParseFails (v : Option String) : Bool :=
  match v with
  | none => false
  | some s => if s = "" then false else (pyFloat s).isNone

/-- All of the variant's required fields are present and non-null. -/
def requiredOk (v : PropVariant) (m : Mapping) : Bool :=
  (requiredFields v).all (fun f => (mget m f).isSome)

def exIsOkL : Except PyErr (List XmlNode) → Bool
  | .ok _ => true
  | .error _ => false

def exOkD : Except PyErr (List XmlNode) → List XmlNode
  | .ok l => l
  | .error _ => []

/-- Did `build_xml` return Python `None` (wrong-variant guard)? -/
def buildIsNull : Except PyErr (Option XmlNode) → Bool
  | .ok none => true
  | _ => false

/-- Did `build_xml` raise? -/
def buildIsErr : Except PyErr (Option XmlNode) → Bool
  | .error _ => true
  | _ => false

/-- Did `build_xml` produce a document? -/
def buildOkSome : Except PyErr (Option XmlNode) → Bool
  | .ok (some _) => true
  | _ => false

/-- The produced document's child list (empty for null/error results). -/
def docChildren : Except PyErr (Option XmlNode) → List XmlNode
  | .ok (some (XmlNode.elem _ _ c)) => c
  | _ => []

def extractIsErr : Except PyErr (Option Mapping) → Bool
  | .error _ => true
  | _ => false

def extractIsOkSome : Except PyErr (Option Mapping) → Bool
  | .ok (some _) => true
  | _ => false

/-! ## Concrete instances used by witnesses and counterexamples -/

/-- A 2000-character paragraph. -/
def bList : List Char := List.replicate 2000 'b'

/-- Concrete cleaned description with paragraphs of lengths 1, 2000, 1:
the greedy split defers the middle paragraph but still packs the last
one into the first segment. -/
def cexDesc3 : String := "a\n\n" ++ String.mk bList ++ "\n\nc"

/-- A single 2001-character paragraph (no blank line to split at). -/
def aLongList : List Char := List.replicate 2001 'a'

def aLong : String := String.mk aLongList

/-- Mapping whose cleaned description overflows with a non-empty
remainder while an explicit otherNote value is also present. -/
def m4cex : Mapping :=
  { type := some "houseBuy", externalId := some "P1", title := some "T",
    value := some 100, livingSpace := some 50, plotArea := some 60,
    descriptionNote := some aLong, otherNote := some "EXPLICIT" }

/-- Mapping with all houseBuy required fields present but an
unparseable latitude. -/
def m8cex : Mapping :=
  { type := some "houseBuy", externalId := some "P2", title := some "T",
    value := some 100, livingSpace := some 50, plotArea := some 60,
    descriptionNote := some "d", latitude := some "abc" }

/-- Mapping with houseBuy type but a missing required field
(`livingSpace`). -/
def m8miss : Mapping :=
  { type := some "houseBuy", externalId := some "P3", title := some "T",
    value := some 100, plotArea := some 60, descriptionNote := some "d" }

/-- Mapping whose latitude is present but parses to the falsy float
`0.0`, with no longitude. -/
def m9cex : Mapping :=
  { descriptionNote := some "d", latitude := some "0" }

/-- Mapping with a truthy longitude. -/
def m9wit : Mapping :=
  { descriptionNote := some "d", longitude := some "36" }

/-- Mapping for the numberOfRooms witness: bedrooms "3", bathrooms
absent. -/
def m6wit : Mapping :=
  { type := some "houseBuy", externalId := some "P4", title := some "T",
    value := some 100, livingSpace := some 50, plotArea := some 60,
    descriptionNote := some "d", numberOfBedRooms := some "3" }

/-- A listing whose extraction raises: supported type, missing town
(`findtext('town').capitalize()` raises AttributeError). -/
def cexL1 : Listing := { type := some "villa" }

/-- A listing that maps successfully. -/
def cexL2 : Listing :=
  { type := some "villa", town := some "Marbella", ref := some "R2",
    price := some "450000", province := some "Málaga",
    surface_area := some { built := some "120", plot := some "300" } }

/-- A listing with an unsupported type label. -/
def cexL3 : Listing := { type := some "lighthouse", town := some "X" }

/-- Demo document for the mapper witnesses. -/
def demoProps : List Listing := [cexL2, cexL3]

/-! ## String-scanning lemmas -/

theorem strLength_mk (l : List Char) : (String.mk l).length = l.length := rfl

theorem strLength_nil : ("" : String).length = 0 := rfl

theorem strLength_sep : ("\n\n" : String).length = 2 := rfl

theorem strLength_append (a b : String) : (a ++ b).length = a.length + b.length := by
  cases a with
  | mk la =>
    cases b with
    | mk lb => simp [String.length, String.append]

theorem strMk_append (a b : List Char) : String.mk a ++ String.mk b = String.mk (a ++ b) := rfl

theorem splitParAux_cons_ne (c : Char) (hc : c ≠ '\n') (l : List Char) (acc : List Char) :
    splitParAux (c :: l) acc = splitParAux l (c :: acc) := by
  cases l with
  | nil => simp [splitParAux, hc]
  | cons d t => simp [splitParAux, hc]

theorem splitParAux_nl2 (l acc : List Char) :
    splitParAux ('\n' :: '\n' :: l) acc = acc.reverse :: splitParAux l [] := by
  simp [splitParAux]

theorem collapseAux_cons_ne (c : Char) (hc : c ≠ '\n') (l : List Char) (k : Nat) :
    collapseAux (c :: l) k = List.replicate (min k 2) '\n' ++ c :: collapseAux l 0 := by
  simp [collapseAux, hc]

theorem collapseAux_nl (l : List Char) (k : Nat) :
    collapseAux ('\n' :: l) k = collapseAux l (k + 1) := by
  simp [collapseAux]

theorem splitlinesAux_cons_ne (c : Char) (hc1 : c ≠ '\n') (hc2 : c ≠ '\r') (l acc : List Char) :
    splitlinesAux (c :: l) acc = splitlinesAux l (c :: acc) := by
  rw [splitlinesAux.eq_def]
  split <;> simp_all

theorem splitlinesAux_nl (l acc : List Char) :
    splitlinesAux ('\n' :: l) acc = acc.reverse :: splitlinesAux l [] := by
  rw [splitlinesAux.eq_def]
  split
  · simp_all
  · simp_all
  · simp_all
  · simp_all
  · rename_i hn hr heq
    injection heq with h1 h2
    exact absurd h1.symm hn

set_option maxHeartbeats 1000000 in
theorem htmlUnescapeAux_cons_ne (c : Char) (hc : c ≠ '&') (l : List Char) :
    htmlUnescapeAux (c :: l) = c :: htmlUnescapeAux l := by
  rw [htmlUnescapeAux.eq_def]
  split <;> simp_all

set_option maxHeartbeats 1000000 in
theorem replaceCR13_cons_ne (c : Char) (hc : c ≠ '&') (l : List Char) :
    replaceCR13 (c :: l) = c :: replaceCR13 l := by
  rw [replaceCR13.eq_def]
  split <;> simp_all

theorem splitParAux_plain_append (l1 : List Char) (h : ∀ c ∈ l1, c ≠ '\n') :
    ∀ l2 acc, splitParAux (l1 ++ l2) acc = splitParAux l2 (l1.reverse ++ acc) := by
  induction l1 with
  | nil => intro l2 acc; simp
  | cons c t ih =>
    intro l2 acc
    rw [List.cons_append, splitParAux_cons_ne c (h c (List.mem_cons_self c t)) _ acc,
      ih (fun d hd => h d (List.mem_cons_of_mem c hd)) l2]
    simp

theorem splitParAux_end (l1 : List Char) (h : ∀ c ∈ l1, c ≠ '\n') (acc : List Char) :
    splitParAux l1 acc = [acc.reverse ++ l1] := by
  have h0 := splitParAux_plain_append l1 h [] acc
  rw [List.append_nil] at h0
  rw [h0]
  simp [splitParAux]

theorem splitParAux_break (l1 l2 : List Char) (h : ∀ c ∈ l1, c ≠ '\n') (acc : List Char) :
    splitParAux (l1 ++ '\n' :: '\n' :: l2) acc = (acc.reverse ++ l1) :: splitParAux l2 [] := by
  rw [splitParAux_plain_append l1 h _ acc, splitParAux_nl2]
  simp

theorem htmlUnescapeAux_id (l : List Char) (h : ∀ c ∈ l, c ≠ '&') : htmlUnescapeAux l = l := by
  induction l with
  | nil => rfl
  | cons c t ih =>
    rw [htmlUnescapeAux_cons_ne c (h c (List.mem_cons_self c t)),
      ih (fun d hd => h d (List.mem_cons_of_mem c hd))]

theorem replaceCR13_id (l : List Char) (h : ∀ c ∈ l, c ≠ '&') : replaceCR13 l = l := by
  induction l with
  | nil => rfl
  | cons c t ih =>
    rw [replaceCR13_cons_ne c (h c (List.mem_cons_self c t)),
      ih (fun d hd => h d (List.mem_cons_of_mem c hd))]

theorem collapseAux_plain_append (l1 : List Char) (h : ∀ c ∈ l1, c ≠ '\n') :
    ∀ l2, collapseAux (l1 ++ l2) 0 = l1 ++ collapseAux l2 0 := by
  induction l1 with
  | nil => intro l2; simp
  | cons c t ih =>
    intro l2
    rw [List.cons_append, collapseAux_cons_ne c (h c (List.mem_cons_self c t)),
      ih (fun d hd => h d (List.mem_cons_of_mem c hd)) l2]
    simp

theorem collapseAux_break (c : Char) (hc : c ≠ '\n') (l : List Char) :
    collapseAux ('\n' :: '\n' :: c :: l) 0 = '\n' :: '\n' :: c :: collapseAux l 0 := by
  rw [collapseAux_nl, collapseAux_nl, collapseAux_cons_ne c hc]
  rfl

theorem splitlinesAux_plain_append (l1 : List Char) (h : ∀ c ∈ l1, c ≠ '\n' ∧ c ≠ '\r') :
    ∀ l2 acc, splitlinesAux (l1 ++ l2) acc = splitlinesAux l2 (l1.reverse ++ acc) := by
  induction l1 with
  | nil => intro l2 acc; simp
  | cons c t ih =>
    intro l2 acc
    rw [List.cons_append,
      splitlinesAux_cons_ne c (h c (List.mem_cons_self c t)).1 (h c (List.mem_cons_self c t)).2 _ acc,
      ih (fun d hd => h d (List.mem_cons_of_mem c hd)) l2]
    simp

theorem splitlinesAux_end (l1 : List Char) (h : ∀ c ∈ l1, c ≠ '\n' ∧ c ≠ '\r')
    (acc : List Char) (hne : acc.reverse ++ l1 ≠ []) :
    splitlinesAux l1 acc = [acc.reverse ++ l1] := by
  have h0 := splitlinesAux_plain_append l1 h [] acc
  rw [List.append_nil] at h0
  rw [h0]
  have h2 : (l1.reverse ++ acc).isEmpty = false := by
    rcases l1 with _ | ⟨c, t⟩
    · rcases acc with _ | ⟨a, s⟩
      · exact absurd rfl hne
      · simp
    · simp
  simp only [splitlinesAux, h2, Bool.false_eq_true, if_false]
  simp

theorem dropWhile_head_not (p : Char → Bool) (l : List Char)
    (h : ∀ c, l.head? = some c → p c = false) :
    l.dropWhile p = l := by
  cases l with
  | nil => rfl
  | cons c t =>
    rw [List.dropWhile_cons, h c rfl]
    simp

theorem pyStrip_eq_self (l : List Char)
    (h1 : ∀ c, l.head? = some c → pyIsSpace c = false)
    (h2 : ∀ c, l.getLast? = some c → pyIsSpace c = false) :
    pyStrip (String.mk l) = String.mk l := by
  show String.mk (((l.dropWhile pyIsSpace).reverse.dropWhile pyIsSpace).reverse) = String.mk l
  rw [dropWhile_head_not _ l h1,
    dropWhile_head_not _ l.reverse (by
      intro c hc
      rw [List.head?_reverse] at hc
      exact h2 c hc),
    List.reverse_reverse]

/-! ## The cleaning routine on plain text -/

theorem clean_plain_single (l : List Char) (hne : l ≠ [])
    (hamp : ∀ c ∈ l, c ≠ '&') (hnl : ∀ c ∈ l, c ≠ '\n')
    (hcr : ∀ c ∈ l, c ≠ '\r') (hsp : ∀ c ∈ l, pyIsSpace c = false) :
    clean_description (some (String.mk l)) = String.mk l := by
  have hne' : ¬(String.mk l = "") := by
    intro h0
    exact hne (congrArg String.data h0)
  have e1 : htmlUnescape (String.mk l) = String.mk l := by
    show String.mk (htmlUnescapeAux l) = String.mk l
    rw [htmlUnescapeAux_id l hamp]
  have e2 : String.mk (replaceCR13 (String.mk l).data) = String.mk l := by
    show String.mk (replaceCR13 l) = String.mk l
    rw [replaceCR13_id l hamp]
  have e4 : collapseNewlines (String.mk l) = String.mk l := by
    show String.mk (collapseAux l 0) = String.mk l
    have h0 := collapseAux_plain_append l hnl []
    rw [List.append_nil] at h0
    rw [h0]
    simp [collapseAux]
  have e5 : pySplitlines (String.mk l) = [String.mk l] := by
    show (splitlinesAux l []).map (fun x => (⟨x⟩ : String)) = [String.mk l]
    rw [splitlinesAux_end l (fun c hc => ⟨hnl c hc, hcr c hc⟩) [] (by simpa using hne)]
    simp
  have e6 : pyStrip (String.mk l) = String.mk l :=
    pyStrip_eq_self l (fun c hc => hsp c (List.mem_of_mem_head? hc))
      (fun c hc => hsp c (List.mem_of_mem_getLast? hc))
  simp only [clean_description]
  rw [if_neg hne']
  show pyStrip (joinWith "\n"
    ((pySplitlines (collapseNewlines (htmlTextExtract
      (String.mk (replaceCR13 (htmlUnescape (String.mk l)).data))))).map pyStrip)) = String.mk l
  rw [e1, e2]
  show pyStrip (joinWith "\n" ((pySplitlines (collapseNewlines (String.mk l))).map pyStrip)) = String.mk l
  rw [e4, e5]
  show pyStrip (joinWith "\n" [pyStrip (String.mk l)]) = String.mk l
  rw [e6]
  show pyStrip (String.mk l) = String.mk l
  exact e6

theorem aLong_chars (c : Char) (hc : c ∈ aLongList) : c = 'a' :=
  List.eq_of_mem_replicate hc

theorem aLongList_len : aLongList.length = 2001 := by
  show (List.replicate 2001 'a').length = 2001
  rw [List.length_replicate]

theorem aLongList_ne_nil : aLongList ≠ [] := by
  intro h0
  have h1 := congrArg List.length h0
  rw [aLongList_len] at h1
  exact absurd h1 (by simp)

theorem clean_aLong : clean_description (some aLong) = aLong := by
  apply clean_plain_single
  · exact aLongList_ne_nil
  · intro c hc; rw [aLong_chars c hc]; decide
  · intro c hc; rw [aLong_chars c hc]; decide
  · intro c hc; rw [aLong_chars c hc]; decide
  · intro c hc; rw [aLong_chars c hc]; decide

theorem aLong_len : aLong.length = 2001 := by
  rw [show aLong = String.mk aLongList from rfl, strLength_mk, aLongList_len]

theorem paragraphs_aLong : descriptionParagraphs aLong = [aLong] := by
  show (splitParAux aLongList []).map (fun l => (⟨l⟩ : String)) = [aLong]
  rw [splitParAux_end aLongList (fun c hc => by rw [aLong_chars c hc]; decide) []]
  simp
  rfl

theorem greedy_aLong : greedySplit [aLong] = ([], [aLong]) := by
  simp [greedySplit, greedySplitAux, aLong_len]

/-! ## The concrete three-paragraph description -/

theorem bList_chars (c : Char) (hc : c ∈ bList) : c = 'b' :=
  List.eq_of_mem_replicate hc

theorem bList_len : bList.length = 2000 := by
  show (List.replicate 2000 'b').length = 2000
  rw [List.length_replicate]

theorem bList_eq_cons : bList = 'b' :: List.replicate 1999 'b' := rfl

theorem cexData_eq : cexDesc3.data = 'a' :: '\n' :: '\n' :: (bList ++ '\n' :: '\n' :: ['c']) := rfl

theorem cexData_shape :
    cexDesc3.data = 'a' :: '\n' :: '\n' :: 'b' ::
      (List.replicate 1999 'b' ++ '\n' :: '\n' :: 'c' :: []) := rfl

theorem cexData_shape2 :
    cexDesc3.data = ('a' :: '\n' :: '\n' :: 'b' :: List.replicate 1999 'b') ++
      ('\n' :: '\n' :: ['c']) := by
  rw [cexData_shape]
  simp only [List.cons_append]

theorem cexData_chars (c : Char) (hc : c ∈ cexDesc3.data) :
    c = 'a' ∨ c = '\n' ∨ c = 'b' ∨ c = 'c' := by
  rw [cexData_eq] at hc
  simp only [List.mem_cons, List.mem_append, List.mem_singleton] at hc
  rcases hc with h | h | h | h | h | h | h
  · exact Or.inl h
  · exact Or.inr (Or.inl h)
  · exact Or.inr (Or.inl h)
  · exact Or.inr (Or.inr (Or.inl (bList_chars c h)))
  · exact Or.inr (Or.inl h)
  · exact Or.inr (Or.inl h)
  · rcases h with h | h
    · exact Or.inr (Or.inr (Or.inr h))
    · exact absurd h (List.not_mem_nil c)

theorem cexDesc3_len : cexDesc3.length = 2006 := by
  show cexDesc3.data.length = 2006
  rw [cexData_eq]
  simp only [List.length_cons, List.length_append, List.length_singleton, List.length_nil, bList_len]

theorem cexDesc3_ne_empty : ¬(cexDesc3 = "") := by
  intro h0
  have h1 : cexDesc3.length = 0 := by rw [h0]; rfl
  rw [cexDesc3_len] at h1
  exact absurd h1 (by omega)

theorem collapseAux_cons0 (c : Char) (hc : c ≠ '\n') (l : List Char) :
    collapseAux (c :: l) 0 = c :: collapseAux l 0 := by
  rw [collapseAux_cons_ne c hc]
  rfl

theorem repl1999_no_nl (c : Char) (hc : c ∈ List.replicate 1999 'b') : c ≠ '\n' := by
  rw [List.eq_of_mem_replicate hc]
  decide

theorem repl1999_plain (c : Char) (hc : c ∈ List.replicate 1999 'b') : c ≠ '\n' ∧ c ≠ '\r' := by
  rw [List.eq_of_mem_replicate hc]
  exact ⟨by decide, by decide⟩

theorem collapse_cexDesc3 : collapseNewlines cexDesc3 = cexDesc3 := by
  show String.mk (collapseAux cexDesc3.data 0) = cexDesc3
  conv_lhs => rw [cexData_shape]
  rw [collapseAux_cons0 'a' (by decide), collapseAux_break 'b' (by decide),
    collapseAux_plain_append (List.replicate 1999 'b') repl1999_no_nl,
    collapseAux_break 'c' (by decide),
    show collapseAux [] 0 = [] from rfl]
  rfl

theorem splitlines_cexDesc3 : pySplitlines cexDesc3 = ["a", "", String.mk bList, "", "c"] := by
  show (splitlinesAux cexDesc3.data []).map (fun x => (⟨x⟩ : String)) = _
  conv_lhs => rw [cexData_shape]
  rw [splitlinesAux_cons_ne 'a' (by decide) (by decide),
    splitlinesAux_nl, splitlinesAux_nl,
    splitlinesAux_cons_ne 'b' (by decide) (by decide),
    splitlinesAux_plain_append (List.replicate 1999 'b') repl1999_plain,
    splitlinesAux_nl, splitlinesAux_nl,
    splitlinesAux_end ['c'] (by decide) [] (by decide)]
  simp only [List.reverse_cons, List.reverse_nil, List.nil_append, List.reverse_append,
    List.reverse_reverse, List.append_nil, List.map]
  rw [show (['b'] ++ List.replicate 1999 'b' : List Char) = bList from rfl]

theorem strData_append (a b : String) : (a ++ b).data = a.data ++ b.data := by
  cases a with
  | mk la =>
    cases b with
    | mk lb => rfl

theorem join_cexDesc3 : joinWith "\n" ["a", "", String.mk bList, "", "c"] = cexDesc3 := by
  have h : (joinWith "\n" ["a", "", String.mk bList, "", "c"]).data = cexDesc3.data := by
    show (("a" ++ "\n" ++ ("" ++ "\n" ++ (String.mk bList ++ "\n" ++ ("" ++ "\n" ++ "c")))) : String).data
      = cexDesc3.data
    rw [cexData_eq]
    simp only [strData_append]
    show ['a', '\n'] ++ (['\n'] ++ ((bList ++ ['\n']) ++ (['\n'] ++ ['c'])))
      = 'a' :: '\n' :: '\n' :: (bList ++ '\n' :: '\n' :: ['c'])
    simp [List.append_assoc]
  have h2 := congrArg String.mk h
  exact h2

theorem cexData_head (c : Char) (hc : cexDesc3.data.head? = some c) : pyIsSpace c = false := by
  rw [cexData_shape] at hc
  simp only [List.head?_cons, Option.some.injEq] at hc
  rw [← hc]
  decide

theorem cexData_last (c : Char) (hc : cexDesc3.data.getLast? = some c) : pyIsSpace c = false := by
  rw [cexData_shape2, List.getLast?_append_of_ne_nil _ (by decide)] at hc
  simp only [show ('\n' :: '\n' :: ['c'] : List Char).getLast? = some 'c' from rfl,
    Option.some.injEq] at hc
  rw [← hc]
  decide

theorem strip_cexDesc3 : pyStrip cexDesc3 = cexDesc3 := by
  have h := pyStrip_eq_self cexDesc3.data cexData_head cexData_last
  exact h

theorem cexDesc3_no_amp (c : Char) (hc : c ∈ cexDesc3.data) : c ≠ '&' := by
  rcases cexData_chars c hc with h | h | h | h <;> rw [h] <;> decide

theorem clean_cexDesc3 : clean_description (some cexDesc3) = cexDesc3 := by
  have e1 : htmlUnescape cexDesc3 = cexDesc3 := by
    show String.mk (htmlUnescapeAux cexDesc3.data) = cexDesc3
    rw [htmlUnescapeAux_id _ cexDesc3_no_amp]
  have e2 : String.mk (replaceCR13 cexDesc3.data) = cexDesc3 := by
    rw [replaceCR13_id _ cexDesc3_no_amp]
  simp only [clean_description]
  rw [if_neg cexDesc3_ne_empty]
  show pyStrip (joinWith "\n"
    ((pySplitlines (collapseNewlines (htmlTextExtract
      (String.mk (replaceCR13 (htmlUnescape cexDesc3).data))))).map pyStrip)) = cexDesc3
  rw [e1, e2]
  show pyStrip (joinWith "\n" ((pySplitlines (collapseNewlines cexDesc3)).map pyStrip)) = cexDesc3
  rw [collapse_cexDesc3, splitlines_cexDesc3]
  have hmap : (["a", "", String.mk bList, "", "c"].map pyStrip) = ["a", "", String.mk bList, "", "c"] := by
    simp only [List.map]
    rw [pyStrip_eq_self bList
        (fun c hc => by rw [bList_chars c (List.mem_of_mem_head? hc)]; decide)
        (fun c hc => by rw [bList_chars c (List.mem_of_mem_getLast? hc)]; decide)]
    rw [show pyStrip "a" = "a" from rfl, show pyStrip "" = "" from rfl,
      show pyStrip "c" = "c" from rfl]
  rw [hmap, join_cexDesc3, strip_cexDesc3]

theorem paragraphs_cexDesc3 : descriptionParagraphs cexDesc3 = ["a", String.mk bList, "c"] := by
  show (splitParAux cexDesc3.data []).map (fun l => (⟨l⟩ : String)) = _
  rw [show cexDesc3.data = ['a'] ++ '\n' :: '\n' :: (bList ++ '\n' :: '\n' :: ['c']) from rfl]
  rw [splitParAux_break ['a'] _ (by decide) [],
    splitParAux_break bList _ (fun c hc => by rw [bList_chars c hc]; decide) [],
    splitParAux_end ['c'] (by decide) []]
  simp

theorem greedy_cexDesc3 :
    greedySplit ["a", String.mk bList, "c"] = (["a", "c"], [String.mk bList]) := by
  have hb : (String.mk bList).length = 2000 := by rw [strLength_mk, bList_len]
  have ha : ("a" : String).length = 1 := rfl
  have hc : ("c" : String).length = 1 := rfl
  simp [greedySplit, greedySplitAux, hb, ha, hc]

/-! ## Greedy-split invariants -/

theorem joinWith_append_one (sep p : String) :
    ∀ first : List String, first ≠ [] →
      joinWith sep (first ++ [p]) = joinWith sep first ++ sep ++ p := by
  intro first
  induction first with
  | nil => intro h; exact absurd rfl h
  | cons x xs ih =>
    intro _
    cases xs with
    | nil => rfl
    | cons y ys =>
      have h1 : joinWith sep ((x :: y :: ys) ++ [p]) =
          x ++ sep ++ joinWith sep ((y :: ys) ++ [p]) := rfl
      have h2 : joinWith sep (x :: y :: ys) = x ++ sep ++ joinWith sep (y :: ys) := rfl
      rw [h1, ih (List.cons_ne_nil y ys), h2]
      simp [String.append_assoc]

theorem greedy_aux_first_le (ps : List String) :
    ∀ curr first second,
      (joinWith "\n\n" first).length + (if first = [] then 0 else 2) =
        curr + 2 * first.length →
      (joinWith "\n\n" first).length ≤ 2000 →
      (joinWith "\n\n" (greedySplitAux ps curr first second).1).length ≤ 2000 := by
  induction ps with
  | nil => intro curr first second _ hle; simpa [greedySplitAux] using hle
  | cons p ps ih =>
    intro curr first second hinv hle
    rw [greedySplitAux]
    by_cases h : curr + p.length + first.length * 2 ≤ 2000
    · rw [if_pos h]
      rcases eq_or_ne first [] with hf | hf
      · subst hf
        have hc : curr = 0 := by
          have h0 := hinv
          simp only [joinWith, strLength_nil, if_pos, List.length_nil, Nat.mul_zero,
            Nat.add_zero, Nat.zero_add] at h0
          omega
        simp only [List.length_nil, Nat.zero_mul, Nat.mul_zero] at h
        simp only [List.nil_append]
        apply ih (curr + p.length) [p] second
        · have hj : joinWith "\n\n" [p] = p := rfl
          rw [hj, if_neg (List.cons_ne_nil p [])]
          simp only [List.length_cons, List.length_nil]
          omega
        · have hj : joinWith "\n\n" [p] = p := rfl
          rw [hj]
          omega
      · apply ih (curr + p.length) (first ++ [p]) second
        · rw [joinWith_append_one _ _ _ hf, strLength_append, strLength_append, strLength_sep]
          rw [if_neg hf] at hinv
          have hne : first ++ [p] ≠ [] := by simp
          rw [if_neg hne]
          simp only [List.length_append, List.length_cons, List.length_nil]
          omega
        · rw [joinWith_append_one _ _ _ hf, strLength_append, strLength_append, strLength_sep]
          rw [if_neg hf] at hinv
          omega
    · rw [if_neg h]
      exact ih curr first (second ++ [p]) hinv hle

theorem greedy_aux_partition (ps : List String) :
    ∀ curr first second,
      ∃ f s, greedySplitAux ps curr first second = (first ++ f, second ++ s) ∧
        f.Sublist ps ∧ s.Sublist ps ∧ f.length + s.length = ps.length := by
  induction ps with
  | nil =>
    intro curr first second
    exact ⟨[], [], by simp [greedySplitAux], List.Sublist.refl _, List.Sublist.refl _, rfl⟩
  | cons p ps ih =>
    intro curr first second
    rw [greedySplitAux]
    by_cases h : curr + p.length + first.length * 2 ≤ 2000
    · rw [if_pos h]
      obtain ⟨f, s, heq, hf, hs, hl⟩ := ih (curr + p.length) (first ++ [p]) second
      refine ⟨p :: f, s, ?_, hf.cons₂ p, hs.cons p, by simp only [List.length_cons]; omega⟩
      rw [heq, List.append_assoc]
      simp
    · rw [if_neg h]
      obtain ⟨f, s, heq, hf, hs, hl⟩ := ih curr first (second ++ [p])
      refine ⟨f, p :: s, ?_, hf.cons p, hs.cons₂ p, by simp only [List.length_cons]; omega⟩
      rw [heq, List.append_assoc]
      simp

/-- Claim C2: for every cleaned description string longer than 2000
characters, the first segment produced by the overflow split (the
paragraphs selected for descriptionNote, rejoined on the two-character
blank-line separator) has length at most 2000 characters. -/
theorem desc_split_first_segment_le_2000 (descripcion : String)
    (_hlong : 2000 < descripcion.length) :
    (joinWith "\n\n" (greedySplit (descriptionParagraphs descripcion)).1).length ≤ 2000 :=
  greedy_aux_first_le (descriptionParagraphs descripcion) 0 [] [] (by decide) (by decide)

theorem desc_split_first_segment_le_2000_witness :
    2000 < aLong.length ∧
      (joinWith "\n\n" (greedySplit (descriptionParagraphs aLong)).1).length ≤ 2000 :=
  have hlen : 2000 < aLong.length := by rw [aLong_len]; omega
  ⟨hlen, desc_split_first_segment_le_2000 aLong hlen⟩

/-- Counterexample to claim C3 as stated: `cexDesc3` is a cleaned
description (a fixed point of the cleaning routine) longer than 2000
characters whose greedy overflow split defers the long middle paragraph
to the second segment but still packs the final short paragraph into
the first segment, so concatenating first-then-second does not
reconstruct the original paragraph sequence. -/
theorem desc_split_reconstruction_cex :
    clean_description (some cexDesc3) = cexDesc3 ∧
    2000 < cexDesc3.length ∧
    (greedySplit (descriptionParagraphs cexDesc3)).1 ++
        (greedySplit (descriptionParagraphs cexDesc3)).2 ≠
      descriptionParagraphs cexDesc3 := by
  refine ⟨clean_cexDesc3, by rw [cexDesc3_len]; omega, ?_⟩
  rw [paragraphs_cexDesc3, greedy_cexDesc3]
  intro habs
  simp only [List.cons_append, List.nil_append] at habs
  injection habs with _ h1
  injection h1 with h2 _
  have hl : (String.mk bList).length = 2000 := by rw [strLength_mk, bList_len]
  have h3 := congrArg String.length h2
  rw [hl] at h3
  exact absurd h3 (by decide)

/-- Claim C3 (amended): for every cleaned description longer than 2000
characters, the two segments of the overflow split are complementary
subsequences of the original paragraph list (no paragraph is split or
lost, relative order is kept inside each segment, and the two segment
lengths sum to the paragraph count); a paragraph that would overflow
the 2000-character budget is deferred to the second segment, but the
loop continues, so the first segment need not be a prefix and the
concatenation first-then-second need not reconstruct the original
order. -/
theorem desc_split_complementary_sublists (descripcion : String)
    (_hlong : 2000 < descripcion.length) :
    (greedySplit (descriptionParagraphs descripcion)).1.Sublist
        (descriptionParagraphs descripcion) ∧
      (greedySplit (descriptionParagraphs descripcion)).2.Sublist
        (descriptionParagraphs descripcion) ∧
      (greedySplit (descriptionParagraphs descripcion)).1.length +
          (greedySplit (descriptionParagraphs descripcion)).2.length =
        (descriptionParagraphs descripcion).length := by
  obtain ⟨f, s, heq, hf, hs, hl⟩ :=
    greedy_aux_partition (descriptionParagraphs descripcion) 0 [] []
  have h1 : greedySplit (descriptionParagraphs descripcion) = (f, s) := by
    rw [greedySplit, heq]
    simp
  rw [h1]
  exact ⟨hf, hs, hl⟩

theorem desc_split_complementary_sublists_witness :
    2000 < cexDesc3.length ∧
      ((greedySplit (descriptionParagraphs cexDesc3)).1.Sublist
          (descriptionParagraphs cexDesc3) ∧
        (greedySplit (descriptionParagraphs cexDesc3)).2.Sublist
          (descriptionParagraphs cexDesc3) ∧
        (greedySplit (descriptionParagraphs cexDesc3)).1.length +
            (greedySplit (descriptionParagraphs cexDesc3)).2.length =
          (descriptionParagraphs cexDesc3).length) :=
  have hlen : 2000 < cexDesc3.length := by rw [cexDesc3_len]; omega
  ⟨hlen, desc_split_complementary_sublists cexDesc3 hlen⟩

/-- Claim C10: for every input that is null or the empty string, the
text-cleaning routine returns the literal string "No description
provided" rather than an empty result, so a note field routed through
cleaning with empty text is never stored or emitted as the empty
string. -/
theorem clean_description_empty_default :
    clean_description none = "No description provided" ∧
    clean_description (some "") = "No description provided" ∧
    "No description provided" ≠ "" :=
  ⟨rfl, rfl, by decide⟩

/-! ## Emission lemmas -/

theorem elemTexts_append (a b : List XmlNode) (t : String) :
    elemTexts (a ++ b) t = elemTexts a t ++ elemTexts b t := by
  simp [elemTexts, List.filterMap_append]

theorem add_element_tag (tag : String) (v : PyVal) :
    ∃ tx, add_element tag (some v) = some (XmlNode.elem tag (some tx) []) := by
  simp only [add_element]
  exact ⟨_, rfl⟩

theorem elemTexts_optList_ne (tag t : String) (h : tag ≠ t) (v : Option PyVal) :
    elemTexts (optList (add_element tag v)) t = [] := by
  cases v with
  | none => rfl
  | some pv =>
    obtain ⟨tx, htx⟩ := add_element_tag tag pv
    rw [htx]
    simp [optList, elemTexts, XmlNode.tag, h]

theorem elemTexts_single_ne (tg : String) (tx : Option String) (ch : List XmlNode)
    (t : String) (h : tg ≠ t) :
    elemTexts [XmlNode.elem tg tx ch] t = [] := by
  simp [elemTexts, XmlNode.tag, h]

theorem elemTexts_single_eq (t : String) (tx : String) (ch : List XmlNode) :
    elemTexts [XmlNode.elem t (some tx) ch] t = [tx] := by
  simp [elemTexts, XmlNode.tag, XmlNode.text]

theorem add_element_otherNote (s : String) :
    add_element "otherNote" (some (PyVal.vStr s)) =
      some (XmlNode.elem "otherNote" (some s) []) := rfl

theorem add_element_numberOfRooms (n : Int) :
    add_element "numberOfRooms" (some (PyVal.vInt n)) =
      some (XmlNode.elem "numberOfRooms" (some (toString n)) []) := rfl

theorem descNodes_overflow (d : String) (h1 : 2000 < d.length)
    (h2 : (greedySplit (descriptionParagraphs d)).2 ≠ []) :
    descNodes d =
      optList (add_element "descriptionNote"
        (some (PyVal.vStr (joinWith "\n\n" (greedySplit (descriptionParagraphs d)).1)))) ++
      optList (add_element "otherNote"
        (some (PyVal.vStr (pyTake 2000 (joinWith "\n\n" (greedySplit (descriptionParagraphs d)).2))))) := by
  have h3 : (greedySplit (descriptionParagraphs d)).2.isEmpty = false := by
    cases hl : (greedySplit (descriptionParagraphs d)).2 with
    | nil => exact absurd hl h2
    | cons x xs => rfl
  rw [descNodes, if_pos h1]
  show optList _ ++ (if (greedySplit (descriptionParagraphs d)).2.isEmpty then [] else _) = _
  rw [h3]
  rfl

theorem elemTexts_descNodes_otherNote (d : String) (h1 : 2000 < d.length)
    (h2 : (greedySplit (descriptionParagraphs d)).2 ≠ []) :
    elemTexts (descNodes d) "otherNote" =
      [pyTake 2000 (joinWith "\n\n" (greedySplit (descriptionParagraphs d)).2)] := by
  rw [descNodes_overflow d h1 h2, elemTexts_append,
    elemTexts_optList_ne "descriptionNote" "otherNote" (by decide),
    add_element_otherNote, show optList (some (XmlNode.elem "otherNote"
      (some (pyTake 2000 (joinWith "\n\n" (greedySplit (descriptionParagraphs d)).2))) [])) =
      [XmlNode.elem "otherNote"
        (some (pyTake 2000 (joinWith "\n\n" (greedySplit (descriptionParagraphs d)).2))) []] from rfl,
    elemTexts_single_eq]
  rfl

theorem elemTexts_descNodes_ne (d t : String) (h1 : t ≠ "descriptionNote")
    (h2 : t ≠ "otherNote") :
    elemTexts (descNodes d) t = [] := by
  rw [descNodes]
  by_cases h : 2000 < d.length
  · rw [if_pos h]
    show elemTexts (optList _ ++ (if (greedySplit (descriptionParagraphs d)).2.isEmpty then [] else _)) t = []
    rw [elemTexts_append, elemTexts_optList_ne "descriptionNote" t (Ne.symm h1)]
    by_cases he : (greedySplit (descriptionParagraphs d)).2.isEmpty
    · rw [if_pos he]
      rfl
    · rw [if_neg he, elemTexts_optList_ne "otherNote" t (Ne.symm h2)]
      rfl
  · rw [if_neg h]
    exact elemTexts_optList_ne "descriptionNote" t (Ne.symm h1) _

theorem elemTexts_addressNode_ne (m : Mapping) (lat lon : Option ℚ) (t : String)
    (h : "address" ≠ t) :
    elemTexts [addressNode m lat lon] t = [] :=
  elemTexts_single_ne "address" none _ t h

theorem elemTexts_commonNodes_otherNote (m : Mapping) (lat lon : Option ℚ) :
    elemTexts (commonNodes m lat lon) "otherNote" =
      elemTexts (descNodes (clean_description m.descriptionNote)) "otherNote" ++
        (match m.otherNote with | some v => [v] | none => []) := by
  rw [commonNodes]
  simp only [elemTexts_append]
  rw [elemTexts_optList_ne "externalId" _ (by decide),
    elemTexts_optList_ne "title" _ (by decide),
    elemTexts_optList_ne "creationDate" _ (by decide),
    elemTexts_optList_ne "lastModificationDate" _ (by decide),
    elemTexts_addressNode_ne m lat lon _ (by decide),
    elemTexts_optList_ne "furnishingNote" _ (by decide),
    elemTexts_optList_ne "locationNote" _ (by decide),
    elemTexts_optList_ne "showAddress" _ (by decide)]
  cases ho : m.otherNote with
  | none =>
    rw [show (Option.map PyVal.vStr none : Option PyVal) = none from rfl,
      show add_element "otherNote" (none : Option PyVal) = none from rfl]
    simp [optList, elemTexts]
  | some v =>
    rw [show (Option.map PyVal.vStr (some v) : Option PyVal) = some (PyVal.vStr v) from rfl,
      add_element_otherNote v,
      show optList (some (XmlNode.elem "otherNote" (some v) [])) =
        [XmlNode.elem "otherNote" (some v) []] from rfl,
      elemTexts_single_eq]
    simp

theorem add_common_ok (m : Mapping) (hok : exIsOkL (add_common_elements m) = true) :
    ∃ lat lon, pyFloatIfTruthy m.latitude = .ok lat ∧ pyFloatIfTruthy m.longitude = .ok lon ∧
      exOkD (add_common_elements m) = commonNodes m lat lon := by
  cases hlat : pyFloatIfTruthy m.latitude with
  | error e =>
    have hb : add_common_elements m = Except.error e := by
      simp only [add_common_elements]
      rw [hlat]
      rfl
    rw [hb] at hok
    simp [exIsOkL] at hok
  | ok lat =>
    cases hlon : pyFloatIfTruthy m.longitude with
    | error e =>
      have hb : add_common_elements m = Except.error e := by
        simp only [add_common_elements]
        rw [hlat, hlon]
        rfl
      rw [hb] at hok
      simp [exIsOkL] at hok
    | ok lon =>
      have hb : add_common_elements m = Except.ok (commonNodes m lat lon) := by
        simp only [add_common_elements]
        rw [hlat, hlon]
        rfl
      exact ⟨lat, lon, rfl, rfl, by rw [hb]; rfl⟩

theorem variantNodes_ok (v : PropVariant) (m : Mapping) (rest : List XmlNode)
    (h : variantNodes v m = .ok rest) :
    ∃ ls pa, rest = variantNodesCore v m ls pa := by
  cases v
  case houseBuy =>
    cases hls : fmtReq m.livingSpace with
    | error e =>
      have hb : variantNodes PropVariant.houseBuy m = Except.error e := by
        simp only [variantNodes]
        rw [hls]
        rfl
      rw [hb] at h
      cases h
    | ok ls =>
      cases hpa : fmtReq m.plotArea with
      | error e =>
        have hb : variantNodes PropVariant.houseBuy m = Except.error e := by
          simp only [variantNodes]
          rw [hls, hpa]
          rfl
        rw [hb] at h
        cases h
      | ok pa =>
        have hb : variantNodes PropVariant.houseBuy m =
            Except.ok (variantNodesCore PropVariant.houseBuy m ls pa) := by
          simp only [variantNodes]
          rw [hls, hpa]
          rfl
        rw [hb] at h
        injection h with h2
        exact ⟨ls, pa, h2.symm⟩
  case apartmentBuy =>
    cases hls : fmtReq m.livingSpace with
    | error e =>
      have hb : variantNodes PropVariant.apartmentBuy m = Except.error e := by
        simp only [variantNodes]
        rw [hls]
        rfl
      rw [hb] at h
      cases h
    | ok ls =>
      have hb : variantNodes PropVariant.apartmentBuy m =
          Except.ok (variantNodesCore PropVariant.apartmentBuy m ls "") := by
        simp only [variantNodes]
        rw [hls]
        rfl
      rw [hb] at h
      injection h with h2
      exact ⟨ls, "", h2.symm⟩
  case livingBuySite =>
    cases hpa : fmtReq m.plotArea with
    | error e =>
      have hb : variantNodes PropVariant.livingBuySite m = Except.error e := by
        simp only [variantNodes]
        rw [hpa]
        rfl
      rw [hb] at h
      cases h
    | ok pa =>
      have hb : variantNodes PropVariant.livingBuySite m =
          Except.ok (variantNodesCore PropVariant.livingBuySite m "" pa) := by
        simp only [variantNodes]
        rw [hpa]
        rfl
      rw [hb] at h
      injection h with h2
      exact ⟨"", pa, h2.symm⟩
  case tradeSite =>
    cases hpa : fmtReq m.plotArea with
    | error e =>
      have hb : variantNodes PropVariant.tradeSite m = Except.error e := by
        simp only [variantNodes]
        rw [hpa]
        rfl
      rw [hb] at h
      cases h
    | ok pa =>
      have hb : variantNodes PropVariant.tradeSite m =
          Except.ok (variantNodesCore PropVariant.tradeSite m "" pa) := by
        simp only [variantNodes]
        rw [hpa]
        rfl
      rw [hb] at h
      injection h with h2
      exact ⟨"", pa, h2.symm⟩

theorem build_ok_decompose (v : PropVariant) (m : Mapping)
    (h : buildOkSome (build_xml v m) = true) :
    ∃ lat lon rest,
      pyFloatIfTruthy m.latitude = .ok lat ∧ pyFloatIfTruthy m.longitude = .ok lon ∧
      variantNodes v m = .ok rest ∧
      docChildren (build_xml v m) = commonNodes m lat lon ++ rest := by
  by_cases hty : m.type ≠ some (variantTag v)
  · have hb : build_xml v m = Except.ok none := by
      rw [build_xml, if_pos hty]
    rw [hb] at h
    simp [buildOkSome] at h
  · cases hval : validate_required_fields m (requiredFields v) with
    | error e =>
      have hb : build_xml v m = Except.error e := by
        rw [build_xml, if_neg hty, hval]
      rw [hb] at h
      simp [buildOkSome] at h
    | ok u =>
      cases u
      cases hcomm : add_common_elements m with
      | error e =>
        have hb : build_xml v m = Except.error PyErr.typeError := by
          rw [build_xml, if_neg hty, hval]
          show (match (do
              let common ← add_common_elements m
              let rest ← variantNodes v m
              Except.ok (common ++ rest) : Except PyErr (List XmlNode)) with
            | .error _ => Except.error PyErr.typeError
            | .ok children => Except.ok (some (XmlNode.elem (variantTag v) none children))) =
            Except.error PyErr.typeError
          rw [hcomm]
          rfl
        rw [hb] at h
        simp [buildOkSome] at h
      | ok common =>
        cases hrest : variantNodes v m with
        | error e =>
          have hb : build_xml v m = Except.error PyErr.typeError := by
            rw [build_xml, if_neg hty, hval]
            show (match (do
                let common ← add_common_elements m
                let rest ← variantNodes v m
                Except.ok (common ++ rest) : Except PyErr (List XmlNode)) with
              | .error _ => Except.error PyErr.typeError
              | .ok children => Except.ok (some (XmlNode.elem (variantTag v) none children))) =
              Except.error PyErr.typeError
            rw [hcomm, hrest]
            rfl
          rw [hb] at h
          simp [buildOkSome] at h
        | ok rest =>
          have hb : build_xml v m =
              Except.ok (some (XmlNode.elem (variantTag v) none (common ++ rest))) := by
            rw [build_xml, if_neg hty, hval]
            show (match (do
                let common ← add_common_elements m
                let rest ← variantNodes v m
                Except.ok (common ++ rest) : Except PyErr (List XmlNode)) with
              | .error _ => Except.error PyErr.typeError
              | .ok children => Except.ok (some (XmlNode.elem (variantTag v) none children))) =
              Except.ok (some (XmlNode.elem (variantTag v) none (common ++ rest)))
            rw [hcomm, hrest]
            rfl
          obtain ⟨lat, lon, hlat, hlon, hcn⟩ := add_common_ok m (by rw [hcomm]; rfl)
          rw [hcomm] at hcn
          refine ⟨lat, lon, rest, hlat, hlon, hrest ▸ rfl, ?_⟩
          rw [hb]
          show common ++ rest = commonNodes m lat lon ++ rest
          rw [← hcn]
          rfl

theorem elemTexts_priceNode_ne (m : Mapping) (t : String) (h : "price" ≠ t) :
    elemTexts [priceNode m] t = [] :=
  elemTexts_single_ne "price" none _ t h

theorem elemTexts_courtageNode_ne (m : Mapping) (b : Bool) (t : String) (h : "courtage" ≠ t) :
    elemTexts [courtageNode m b] t = [] :=
  elemTexts_single_ne "courtage" none _ t h

theorem elemTexts_commonNodes_numberOfRooms (m : Mapping) (lat lon : Option ℚ) :
    elemTexts (commonNodes m lat lon) "numberOfRooms" = [] := by
  rw [commonNodes]
  simp only [elemTexts_append]
  rw [elemTexts_optList_ne "externalId" _ (by decide),
    elemTexts_optList_ne "title" _ (by decide),
    elemTexts_optList_ne "creationDate" _ (by decide),
    elemTexts_optList_ne "lastModificationDate" _ (by decide),
    elemTexts_addressNode_ne m lat lon _ (by decide),
    elemTexts_descNodes_ne _ _ (by decide) (by decide),
    elemTexts_optList_ne "furnishingNote" _ (by decide),
    elemTexts_optList_ne "locationNote" _ (by decide),
    elemTexts_optList_ne "otherNote" _ (by decide),
    elemTexts_optList_ne "showAddress" _ (by decide)]
  rfl

theorem elemTexts_core_rooms_house (m : Mapping) (ls pa : String) :
    elemTexts (variantNodesCore PropVariant.houseBuy m ls pa) "numberOfRooms" =
      [toString (roomsCount m.numberOfBedRooms m.numberOfBathRooms)] := by
  simp only [variantNodesCore, elemTexts_append]
  rw [elemTexts_optList_ne "buildingType" _ (by decide),
    elemTexts_optList_ne "numberOfBedRooms" _ (by decide),
    elemTexts_optList_ne "numberOfBathRooms" _ (by decide),
    elemTexts_priceNode_ne m _ (by decide),
    elemTexts_optList_ne "livingSpace" _ (by decide),
    elemTexts_optList_ne "plotArea" _ (by decide),
    elemTexts_courtageNode_ne m false _ (by decide),
    add_element_numberOfRooms,
    show optList (some (XmlNode.elem "numberOfRooms"
      (some (toString (roomsCount m.numberOfBedRooms m.numberOfBathRooms))) [])) =
      [XmlNode.elem "numberOfRooms"
        (some (toString (roomsCount m.numberOfBedRooms m.numberOfBathRooms))) []] from rfl,
    elemTexts_single_eq]
  rfl

theorem elemTexts_core_rooms_apartment (m : Mapping) (ls pa : String) :
    elemTexts (variantNodesCore PropVariant.apartmentBuy m ls pa) "numberOfRooms" =
      [toString (roomsCount m.numberOfBedRooms m.numberOfBathRooms)] := by
  simp only [variantNodesCore, elemTexts_append]
  rw [elemTexts_optList_ne "apartmentType" _ (by decide),
    elemTexts_optList_ne "numberOfBedRooms" _ (by decide),
    elemTexts_optList_ne "numberOfBathRooms" _ (by decide),
    elemTexts_priceNode_ne m _ (by decide),
    elemTexts_optList_ne "livingSpace" _ (by decide),
    elemTexts_courtageNode_ne m false _ (by decide),
    add_element_numberOfRooms,
    show optList (some (XmlNode.elem "numberOfRooms"
      (some (toString (roomsCount m.numberOfBedRooms m.numberOfBathRooms))) [])) =
      [XmlNode.elem "numberOfRooms"
        (some (toString (roomsCount m.numberOfBedRooms m.numberOfBathRooms))) []] from rfl,
    elemTexts_single_eq]
  rfl

/-- Claim C6: for every houseBuy or apartmentBuy mapping that builds
successfully, the emitted numberOfRooms element equals the integer sum
of the mapping's bedroom and bathroom counts, where a count that is
absent (null) or not parseable as an integer contributes zero. -/
theorem numberOfRooms_sum (v : PropVariant) (m : Mapping)
    (hv : v = PropVariant.houseBuy ∨ v = PropVariant.apartmentBuy)
    (hok : buildOkSome (build_xml v m) = true) :
    elemTexts (docChildren (build_xml v m)) "numberOfRooms" =
      [toString (roomsCount m.numberOfBedRooms m.numberOfBathRooms)] := by
  obtain ⟨lat, lon, rest, _, _, hrest, hdoc⟩ := build_ok_decompose v m hok
  obtain ⟨ls, pa, hcore⟩ := variantNodes_ok v m rest hrest
  rw [hdoc, elemTexts_append, elemTexts_commonNodes_numberOfRooms, hcore]
  rcases hv with hv | hv
  · subst hv
    rw [elemTexts_core_rooms_house m ls pa]
    rfl
  · subst hv
    rw [elemTexts_core_rooms_apartment m ls pa]
    rfl

theorem numberOfRooms_sum_witness :
    elemTexts (docChildren (build_xml PropVariant.houseBuy m6wit)) "numberOfRooms" =
      [toString (roomsCount m6wit.numberOfBedRooms m6wit.numberOfBathRooms)] :=
  numberOfRooms_sum PropVariant.houseBuy m6wit (Or.inl rfl) (by decide)

/-- Claim C4 (amended): when the cleaned description overflows with a
non-empty remainder, the remainder paragraphs (joined and truncated to
2000 characters) are emitted as an otherNote element, and the mapping's
explicit otherNote value, when present, is still emitted as an
additional otherNote element after the note fields — the explicit value
is not overridden, so exactly one otherNote appears only when the
mapping's own otherNote is null. -/
theorem overflow_othernote_emission (m : Mapping)
    (hok : exIsOkL (add_common_elements m) = true)
    (hlong : 2000 < (clean_description m.descriptionNote).length)
    (hrem : (greedySplit (descriptionParagraphs (clean_description m.descriptionNote))).2 ≠ []) :
    elemTexts (exOkD (add_common_elements m)) "otherNote" =
      pyTake 2000 (joinWith "\n\n"
        (greedySplit (descriptionParagraphs (clean_description m.descriptionNote))).2) ::
      (match m.otherNote with | some v => [v] | none => []) := by
  obtain ⟨lat, lon, _, _, hcn⟩ := add_common_ok m hok
  rw [hcn, elemTexts_commonNodes_otherNote, elemTexts_descNodes_otherNote _ hlong hrem]
  rfl

theorem m4cex_long : 2000 < (clean_description m4cex.descriptionNote).length := by
  show 2000 < (clean_description (some aLong)).length
  rw [clean_aLong, aLong_len]
  omega

theorem m4cex_rem :
    (greedySplit (descriptionParagraphs (clean_description m4cex.descriptionNote))).2 ≠ [] := by
  show (greedySplit (descriptionParagraphs (clean_description (some aLong)))).2 ≠ []
  rw [clean_aLong, paragraphs_aLong, greedy_aLong]
  simp

theorem overflow_othernote_emission_witness :
    elemTexts (exOkD (add_common_elements m4cex)) "otherNote" =
      pyTake 2000 (joinWith "\n\n"
        (greedySplit (descriptionParagraphs (clean_description m4cex.descriptionNote))).2) ::
      (match m4cex.otherNote with | some v => [v] | none => []) :=
  overflow_othernote_emission m4cex (by decide) m4cex_long m4cex_rem

theorem elemTexts_core_house_otherNote (m : Mapping) (ls pa : String) :
    elemTexts (variantNodesCore PropVariant.houseBuy m ls pa) "otherNote" = [] := by
  simp only [variantNodesCore, elemTexts_append]
  rw [elemTexts_optList_ne "buildingType" _ (by decide),
    elemTexts_optList_ne "numberOfBedRooms" _ (by decide),
    elemTexts_optList_ne "numberOfBathRooms" _ (by decide),
    elemTexts_priceNode_ne m _ (by decide),
    elemTexts_optList_ne "livingSpace" _ (by decide),
    elemTexts_optList_ne "plotArea" _ (by decide),
    elemTexts_optList_ne "numberOfRooms" _ (by decide),
    elemTexts_courtageNode_ne m false _ (by decide)]
  rfl

/-- Counterexample to claim C4 as stated: a houseBuy mapping whose
cleaned description overflows (single 2001-character paragraph, empty
first segment, whole text deferred to the remainder) and which carries
an explicit otherNote.  The built document contains two otherNote
elements and the mapping's own value does appear. -/
theorem overflow_othernote_duplicate_cex :
    2000 < (clean_description m4cex.descriptionNote).length ∧
    (greedySplit (descriptionParagraphs (clean_description m4cex.descriptionNote))).2 ≠ [] ∧
    m4cex.otherNote = some "EXPLICIT" ∧
    countTag (docChildren (build_xml PropVariant.houseBuy m4cex)) "otherNote" = 2 ∧
    "EXPLICIT" ∈ elemTexts (docChildren (build_xml PropVariant.houseBuy m4cex)) "otherNote" := by
  have hok4 : buildOkSome (build_xml PropVariant.houseBuy m4cex) = true := by decide
  obtain ⟨lat, lon, rest, _, _, hrest, hdoc⟩ := build_ok_decompose _ _ hok4
  obtain ⟨ls, pa, hcore⟩ := variantNodes_ok _ _ rest hrest
  have htexts : elemTexts (docChildren (build_xml PropVariant.houseBuy m4cex)) "otherNote" =
      pyTake 2000 (joinWith "\n\n"
        (greedySplit (descriptionParagraphs (clean_description m4cex.descriptionNote))).2) ::
      ["EXPLICIT"] := by
    rw [hdoc, elemTexts_append, elemTexts_commonNodes_otherNote,
      elemTexts_descNodes_otherNote _ m4cex_long m4cex_rem, hcore,
      elemTexts_core_house_otherNote]
    rfl
  refine ⟨m4cex_long, m4cex_rem, rfl, ?_, ?_⟩
  · rw [countTag, htexts]
    rfl
  · rw [htexts]
    simp

/-! ## Coordinate-block lemmas -/

theorem mem_optList_addel (tag : String) (v : Option PyVal) (n : XmlNode)
    (hn : n ∈ optList (add_element tag v)) : n.tag = tag := by
  cases v with
  | none => cases hn
  | some pv =>
    obtain ⟨tx, htx⟩ := add_element_tag tag pv
    rw [htx] at hn
    simp only [optList, List.mem_singleton] at hn
    rw [hn]
    rfl

theorem mem_descNodes_tag (d : String) (n : XmlNode) (hn : n ∈ descNodes d) :
    n.tag = "descriptionNote" ∨ n.tag = "otherNote" := by
  simp only [descNodes] at hn
  by_cases h : 2000 < d.length
  · rw [if_pos h] at hn
    rcases List.mem_append.mp hn with h1 | h1
    · exact Or.inl (mem_optList_addel _ _ n h1)
    · by_cases he : (greedySplit (descriptionParagraphs d)).2.isEmpty
      · rw [if_pos he] at h1
        cases h1
      · rw [if_neg he] at h1
        exact Or.inr (mem_optList_addel _ _ n h1)
  · rw [if_neg h] at hn
    exact Or.inl (mem_optList_addel _ _ n hn)

theorem any_wgs_optList (tag : String) (v : Option PyVal) (h : tag ≠ "wgs84Coordinate") :
    (optList (add_element tag v)).any (fun w => w.tag = "wgs84Coordinate") = false := by
  rw [List.any_eq_false]
  intro n hn
  simp [mem_optList_addel tag v n hn, h]

theorem any_addr_optList (tag : String) (v : Option PyVal) (h : tag ≠ "address") :
    (optList (add_element tag v)).any
      (fun n => n.tag = "address" && n.children.any (fun w => w.tag = "wgs84Coordinate")) = false := by
  rw [List.any_eq_false]
  intro n hn
  simp [mem_optList_addel tag v n hn, h]

theorem any_addr_descNodes (d : String) :
    (descNodes d).any
      (fun n => n.tag = "address" && n.children.any (fun w => w.tag = "wgs84Coordinate")) = false := by
  rw [List.any_eq_false]
  intro n hn
  rcases mem_descNodes_tag d n hn with h | h <;> simp [h]

theorem addressNode_children_any (m : Mapping) (lat lon : Option ℚ) :
    (addressNode m lat lon).children.any (fun w => w.tag = "wgs84Coordinate") =
      (floatTruthy lat || floatTruthy lon) := by
  simp only [addressNode, XmlNode.children]
  simp only [List.any_append]
  rw [any_wgs_optList "street" _ (by decide), any_wgs_optList "houseNumber" _ (by decide),
    any_wgs_optList "postcode" _ (by decide), any_wgs_optList "city" _ (by decide)]
  simp only [List.any_cons, List.any_nil]
  cases hcoord : (floatTruthy lat || floatTruthy lon) with
  | true => simp [XmlNode.tag]
  | false => simp [XmlNode.tag]

theorem hasCoordBlock_commonNodes (m : Mapping) (lat lon : Option ℚ) :
    hasCoordBlock (commonNodes m lat lon) = (floatTruthy lat || floatTruthy lon) := by
  rw [hasCoordBlock, commonNodes]
  simp only [List.any_append]
  rw [any_addr_optList "externalId" _ (by decide), any_addr_optList "title" _ (by decide),
    any_addr_optList "creationDate" _ (by decide),
    any_addr_optList "lastModificationDate" _ (by decide),
    any_addr_descNodes, any_addr_optList "furnishingNote" _ (by decide),
    any_addr_optList "locationNote" _ (by decide), any_addr_optList "otherNote" _ (by decide),
    any_addr_optList "showAddress" _ (by decide)]
  have hpred : ((addressNode m lat lon).tag = "address" &&
      (addressNode m lat lon).children.any (fun w => w.tag = "wgs84Coordinate")) =
        (floatTruthy lat || floatTruthy lon) := by
    rw [addressNode_children_any]
    simp [addressNode, XmlNode.tag]
  simp only [List.any_cons, List.any_nil]
  simp [hpred]

theorem pyFloatIfTruthy_ok_truthy (v : Option String) (x : Option ℚ)
    (h : pyFloatIfTruthy v = .ok x) : floatTruthy x = coordTruthy v := by
  cases v with
  | none =>
    simp only [pyFloatIfTruthy] at h
    injection h with h2
    rw [← h2]
    rfl
  | some s =>
    simp only [pyFloatIfTruthy] at h
    by_cases hs : s = ""
    · rw [if_pos hs] at h
      injection h with h2
      rw [← h2]
      simp [coordTruthy, hs, floatTruthy]
    · rw [if_neg hs] at h
      cases hq : pyFloat s with
      | some q =>
        rw [hq] at h
        injection h with h2
        rw [← h2]
        simp [coordTruthy, hs, hq, floatTruthy]
      | none =>
        rw [hq] at h
        cases h

/-- Claim C9 (amended): for every successfully emitted common block,
the address contains a wgs84Coordinate pair block if and only if at
least one of the mapping's latitude/longitude fields is truthy in the
Python sense: present, non-empty, and parsing to a non-zero float.  A
present coordinate that parses to 0.0 (or an empty string) does not
produce the block. -/
theorem coord_block_iff_truthy (m : Mapping)
    (hok : exIsOkL (add_common_elements m) = true) :
    hasCoordBlock (exOkD (add_common_elements m)) =
      (coordTruthy m.latitude || coordTruthy m.longitude) := by
  obtain ⟨lat, lon, hlat, hlon, hcn⟩ := add_common_ok m hok
  rw [hcn, hasCoordBlock_commonNodes, pyFloatIfTruthy_ok_truthy _ _ hlat,
    pyFloatIfTruthy_ok_truthy _ _ hlon]

theorem coord_block_iff_truthy_witness :
    hasCoordBlock (exOkD (add_common_elements m9wit)) =
      (coordTruthy m9wit.latitude || coordTruthy m9wit.longitude) :=
  coord_block_iff_truthy m9wit (by decide)

/-- Counterexample to claim C9 as stated: a mapping whose latitude is
present (the string "0") but whose emitted address carries no
wgs84Coordinate block, because `float("0")` is falsy in the builder's
`if lat or lon` test. -/
theorem pyFloat_zero : pyFloat "0" = some 0 := by
  have h1 : pyFloat "0" = some (1 * ((0 : ℕ) : ℚ)) := rfl
  rw [h1]
  norm_num

theorem m9cex_lat_parse : pyFloatIfTruthy m9cex.latitude = Except.ok (some 0) := by
  show pyFloatIfTruthy (some "0") = Except.ok (some 0)
  simp [pyFloatIfTruthy, pyFloat_zero]

theorem m9cex_common : add_common_elements m9cex = Except.ok (commonNodes m9cex (some 0) none) := by
  simp only [add_common_elements]
  rw [m9cex_lat_parse, show pyFloatIfTruthy m9cex.longitude = Except.ok none from rfl]
  rfl

theorem coord_block_zero_lat_cex :
    exIsOkL (add_common_elements m9cex) = true ∧
    m9cex.latitude.isSome = true ∧
    hasCoordBlock (exOkD (add_common_elements m9cex)) = false := by
  refine ⟨by rw [m9cex_common]; rfl, rfl, ?_⟩
  rw [show exOkD (add_common_elements m9cex) = commonNodes m9cex (some 0) none from by
      rw [m9cex_common]; rfl,
    hasCoordBlock_commonNodes]
  norm_num [floatTruthy]

/-- Claim C7: an enumerated field whose value lies outside its valid
set is replaced by its documented fallback: a commercializationType
outside BUY/LEASE is emitted as "BUY", a utilizationTradeSite outside
its valid set as "NO_INFORMATION", and a listedOnlyOnIs24 outside
YES/NO/NOT_APPLICABLE as "NO"; `add_element` is total, so emission
continues without error. -/
theorem enum_fallbacks (s1 s2 s3 : String)
    (h1 : s1 ∉ VALID_COMMERCIALIZATION_TYPES)
    (h2 : s2 ∉ VALID_UTILIZATION_TRADE_TYPES)
    (h3 : s3 ∉ VALID_LISTED_ONLY_VALUES) :
    add_element "commercializationType" (some (PyVal.vStr s1)) =
      some (XmlNode.elem "commercializationType" (some "BUY") []) ∧
    add_element "utilizationTradeSite" (some (PyVal.vStr s2)) =
      some (XmlNode.elem "utilizationTradeSite" (some "NO_INFORMATION") []) ∧
    add_element "listedOnlyOnIs24" (some (PyVal.vStr s3)) =
      some (XmlNode.elem "listedOnlyOnIs24" (some "NO") []) := by
  have hc1 : VALID_COMMERCIALIZATION_TYPES.contains s1 = false := by
    cases hb : VALID_COMMERCIALIZATION_TYPES.contains s1
    · rfl
    · exact absurd (List.mem_of_elem_eq_true hb) h1
  have hc2 : VALID_UTILIZATION_TRADE_TYPES.contains s2 = false := by
    cases hb : VALID_UTILIZATION_TRADE_TYPES.contains s2
    · rfl
    · exact absurd (List.mem_of_elem_eq_true hb) h2
  have hc3 : VALID_LISTED_ONLY_VALUES.contains s3 = false := by
    cases hb : VALID_LISTED_ONLY_VALUES.contains s3
    · rfl
    · exact absurd (List.mem_of_elem_eq_true hb) h3
  refine ⟨?_, ?_, ?_⟩
  · simp only [add_element, pyValInStrs]
    simp only [hc1, Bool.false_eq_true, if_false]
    simp [pyStr]
  · simp only [add_element, pyValInStrs]
    simp only [hc2, Bool.false_eq_true, if_false]
    simp [pyStr]
  · simp only [add_element, pyValInStrs]
    simp only [hc3, Bool.false_eq_true, if_false]
    simp [pyStr]

theorem enum_fallbacks_witness :
    add_element "commercializationType" (some (PyVal.vStr "RENT_TO_OWN")) =
      some (XmlNode.elem "commercializationType" (some "BUY") []) ∧
    add_element "utilizationTradeSite" (some (PyVal.vStr "RETAIL")) =
      some (XmlNode.elem "utilizationTradeSite" (some "NO_INFORMATION") []) ∧
    add_element "listedOnlyOnIs24" (some (PyVal.vStr "MAYBE")) =
      some (XmlNode.elem "listedOnlyOnIs24" (some "NO") []) :=
  enum_fallbacks "RENT_TO_OWN" "RETAIL" "MAYBE" (by decide) (by decide) (by decide)

/-! ## Mapper lemmas -/

theorem transformar_ok (props : List Listing) (ms : List Mapping)
    (h : runAll props = .ok ms) : transformar_xml props = ms := by
  rw [transformar_xml, h]

theorem transformar_err (props : List Listing) (e : PyErr)
    (h : runAll props = .error e) : transformar_xml props = [] := by
  rw [transformar_xml, h]

theorem runAll_error_of_mem (props : List Listing)
    (h : ∃ p ∈ props, extractIsErr (extractListing p) = true) :
    ∃ e, runAll props = .error e := by
  induction props with
  | nil =>
    obtain ⟨p, hp, _⟩ := h
    cases hp
  | cons q ps ih =>
    obtain ⟨p, hp, herr⟩ := h
    rcases List.mem_cons.mp hp with hq | hmem
    · subst hq
      cases hq2 : extractListing p with
      | error e =>
        refine ⟨e, ?_⟩
        simp only [runAll]
        rw [hq2]
        rfl
      | ok r =>
        rw [hq2] at herr
        simp [extractIsErr] at herr
    · obtain ⟨e, he⟩ := ih ⟨p, hmem, herr⟩
      cases hq2 : extractListing q with
      | error e2 =>
        refine ⟨e2, ?_⟩
        simp only [runAll]
        rw [hq2]
        rfl
      | ok r =>
        refine ⟨e, ?_⟩
        simp only [runAll]
        rw [hq2, he]
        rfl

/-- Claim C1 (amended): the listing loop has no per-listing exception
handler — the whole loop runs inside one try/except — so an exception
raised while extracting the fields of any one listing aborts the run
and `transformar_xml` returns the empty list: the failure IS promoted
to a document-level empty result and no other listing's mapping
survives.  Only a listing with a missing or unsupported type label is
skipped individually. -/
theorem mapper_listing_exception_empties_run (props : List Listing)
    (h : ∃ p ∈ props, extractIsErr (extractListing p) = true) :
    transformar_xml props = [] := by
  obtain ⟨e, he⟩ := runAll_error_of_mem props h
  exact transformar_err props e he

theorem mapper_listing_exception_empties_run_witness :
    transformar_xml [cexL1] = [] :=
  mapper_listing_exception_empties_run [cexL1]
    ⟨cexL1, List.mem_singleton.mpr rfl, by decide⟩

/-- Counterexample to claim C1 as stated: `cexL1` has a supported type
but a missing town, so its field extraction raises (AttributeError on
`None.capitalize()`); `cexL2` maps successfully on its own; yet the run
over both listings yields no mapping at all, rather than skipping only
the failing listing. -/
theorem mapper_listing_exception_cex :
    extractIsErr (extractListing cexL1) = true ∧
    extractIsOkSome (extractListing cexL2) = true ∧
    (transformar_xml [cexL1, cexL2]).length = 0 := by
  refine ⟨by decide, by decide, by decide⟩

theorem runAll_ok_length (props : List Listing) (ms : List Mapping)
    (h : runAll props = .ok ms) : ms.length ≤ props.length := by
  induction props generalizing ms with
  | nil =>
    simp only [runAll] at h
    injection h with h2
    subst h2
    simp
  | cons q ps ih =>
    simp only [runAll] at h
    cases hq : extractListing q with
    | error e =>
      rw [hq] at h
      cases h
    | ok m? =>
      rw [hq] at h
      cases hr : runAll ps with
      | error e =>
        rw [hr] at h
        cases h
      | ok rest =>
        rw [hr] at h
        injection h with h2
        subst h2
        have hle := ih rest hr
        cases m? with
        | some m =>
          simp only [List.length_cons]
          omega
        | none =>
          simp only [List.length_cons]
          omega

theorem runAll_mem (props : List Listing) (ms : List Mapping)
    (h : runAll props = .ok ms) :
    ∀ m ∈ ms, ∃ p ∈ props, extractListing p = .ok (some m) := by
  induction props generalizing ms with
  | nil =>
    simp only [runAll] at h
    injection h with h2
    subst h2
    intro m hm
    cases hm
  | cons q ps ih =>
    simp only [runAll] at h
    cases hq : extractListing q with
    | error e =>
      rw [hq] at h
      cases h
    | ok m? =>
      rw [hq] at h
      cases hr : runAll ps with
      | error e =>
        rw [hr] at h
        cases h
      | ok rest =>
        rw [hr] at h
        injection h with h2
        subst h2
        intro m hm
        cases m? with
        | some m0 =>
          rcases List.mem_cons.mp hm with hm0 | hm1
          · subst hm0
            exact ⟨q, List.mem_cons_self q ps, hq⟩
          · obtain ⟨p, hp, he⟩ := ih rest hr m hm1
            exact ⟨p, List.mem_cons_of_mem q hp, he⟩
        | none =>
          obtain ⟨p, hp, he⟩ := ih rest hr m hm
          exact ⟨p, List.mem_cons_of_mem q hp, he⟩

theorem extract_ok_some_type (p : Listing) (m : Mapping)
    (h : extractListing p = .ok (some m)) :
    ∃ tp, resolveType p.type = some tp ∧ TYPE_MAPPING_values.contains tp = true ∧
      m.type = some tp := by
  cases hres : resolveType p.type with
  | none =>
    have h0 : extractListing p = Except.ok none := by
      unfold extractListing
      rw [hres]
    rw [h0] at h
    injection h with h2
    cases h2
  | some tp =>
    have h0 : extractListing p =
        if TYPE_MAPPING_values.contains tp then
          (extractNums p tp).map (fun e => some (mkMapping p tp e))
        else .ok none := by
      unfold extractListing
      rw [hres]
    rw [h0] at h
    by_cases hc : TYPE_MAPPING_values.contains tp = true
    · rw [if_pos hc] at h
      cases hn : extractNums p tp with
      | error e =>
        rw [hn] at h
        cases h
      | ok e0 =>
        rw [hn] at h
        injection h with h2
        injection h2 with h3
        exact ⟨tp, rfl, hc, by rw [← h3]; rfl⟩
    · rw [if_neg hc] at h
      injection h with h2
      cases h2

/-- Claim C5: the Extractor/Mapper resolves each listing's type by
lowercasing and trimming the source type label and looking it up in
`TYPE_MAPPING`; a listing whose label is missing or has no table match
contributes no mapping; every mapping produced carries a resolved type
among the four canonical tags; and the number of mappings produced is
at most the number of listing records. -/
theorem mapper_type_resolution (props : List Listing) :
    (transformar_xml props).length ≤ props.length ∧
    (∀ m ∈ transformar_xml props, ∃ t ∈ TYPE_MAPPING_values, m.type = some t) ∧
    (∀ p ∈ props, resolveType p.type = none → extractListing p = Except.ok none) ∧
    (∀ p ∈ props, ∀ mp : Mapping, extractListing p = Except.ok (some mp) →
      mp.type = resolveType p.type) := by
  refine ⟨?_, ?_, ?_, ?_⟩
  · cases hr : runAll props with
    | error e =>
      rw [transformar_err props e hr]
      simp
    | ok ms =>
      rw [transformar_ok props ms hr]
      exact runAll_ok_length props ms hr
  · intro m hm
    cases hr : runAll props with
    | error e =>
      rw [transformar_err props e hr] at hm
      cases hm
    | ok ms =>
      rw [transformar_ok props ms hr] at hm
      obtain ⟨p, _, he⟩ := runAll_mem props ms hr m hm
      obtain ⟨tp, _, hc, hty⟩ := extract_ok_some_type p m he
      exact ⟨tp, List.mem_of_elem_eq_true hc, hty⟩
  · intro p _ hres
    unfold extractListing
    rw [hres]
  · intro p _ mp he
    obtain ⟨tp, hres, _, hty⟩ := extract_ok_some_type p mp he
    rw [hty, hres]

theorem mapper_type_resolution_witness :
    (transformar_xml demoProps).length ≤ demoProps.length ∧
    extractListing cexL3 = Except.ok none :=
  ⟨(mapper_type_resolution demoProps).1,
   (mapper_type_resolution demoProps).2.2.1 cexL3
     (by
       show cexL3 ∈ [cexL2, cexL3]
       exact List.mem_cons_of_mem _ (List.mem_singleton.mpr rfl))
     (by decide)⟩

theorem validate_ok_iff (m : Mapping) (fs : List String) :
    validate_required_fields m fs = .ok () ↔
      fs.all (fun f => (mget m f).isSome) = true := by
  induction fs with
  | nil => simp [validate_required_fields]
  | cons f fs ih =>
    simp only [validate_required_fields, List.all_cons, Bool.and_eq_true]
    by_cases hf : (mget m f).isSome = true
    · rw [if_pos hf]
      constructor
      · intro h
        exact ⟨hf, ih.mp h⟩
      · intro h
        exact ih.mpr h.2
    · rw [if_neg hf]
      constructor
      · intro h
        cases h
      · intro h
        exact absurd h.1 hf

theorem validate_err (m : Mapping) (fs : List String)
    (h : fs.all (fun f => (mget m f).isSome) = false) :
    validate_required_fields m fs = .error PyErr.valueError := by
  induction fs with
  | nil => simp at h
  | cons f fs ih =>
    simp only [validate_required_fields]
    by_cases hf : (mget m f).isSome = true
    · rw [if_pos hf]
      apply ih
      simp only [List.all_cons, hf, Bool.true_and] at h
      exact h
    · rw [if_neg hf]

theorem pyFloatIfTruthy_error_fails (v : Option String) (e : PyErr)
    (h : pyFloatIfTruthy v = .error e) : floatParseFails v = true := by
  cases v with
  | none => simp [pyFloatIfTruthy] at h
  | some s =>
    simp only [pyFloatIfTruthy] at h
    simp only [floatParseFails]
    by_cases hs : s = ""
    · rw [if_pos hs] at h
      cases h
    · rw [if_neg hs] at h
      rw [if_neg hs]
      cases hp : pyFloat s with
      | some q =>
        rw [hp] at h
        cases h
      | none =>
        rfl

theorem pyFloatIfTruthy_ok_not_fails (v : Option String) (x : Option ℚ)
    (h : pyFloatIfTruthy v = .ok x) : floatParseFails v = false := by
  cases v with
  | none => rfl
  | some s =>
    simp only [pyFloatIfTruthy] at h
    simp only [floatParseFails]
    by_cases hs : s = ""
    · rw [if_pos hs]
    · rw [if_neg hs] at h
      rw [if_neg hs]
      cases hp : pyFloat s with
      | some q =>
        rfl
      | none =>
        rw [hp] at h
        cases h

theorem variantNodes_ok_of_required (v : PropVariant) (m : Mapping)
    (h : requiredOk v m = true) : ∃ rest, variantNodes v m = .ok rest := by
  cases v
  case houseBuy =>
    simp only [requiredOk, requiredFields, List.all_cons, List.all_nil,
      Bool.and_eq_true] at h
    obtain ⟨-, -, -, hls, hpa, -⟩ := h
    have hls2 : (m.livingSpace.map PyVal.vRat).isSome = true := hls
    have hpa2 : (m.plotArea.map PyVal.vRat).isSome = true := hpa
    cases hls0 : m.livingSpace with
    | none =>
      rw [hls0] at hls2
      simp at hls2
    | some q1 =>
      cases hpa0 : m.plotArea with
      | none =>
        rw [hpa0] at hpa2
        simp at hpa2
      | some q2 =>
        refine ⟨variantNodesCore .houseBuy m (formatFixed2 q1) (formatFixed2 q2), ?_⟩
        simp only [variantNodes]
        rw [show fmtReq m.livingSpace = Except.ok (formatFixed2 q1) from by rw [hls0]; rfl,
          show fmtReq m.plotArea = Except.ok (formatFixed2 q2) from by rw [hpa0]; rfl]
        rfl
  case apartmentBuy =>
    simp only [requiredOk, requiredFields, List.all_cons, List.all_nil,
      Bool.and_eq_true] at h
    obtain ⟨-, -, -, hls, -⟩ := h
    have hls2 : (m.livingSpace.map PyVal.vRat).isSome = true := hls
    cases hls0 : m.livingSpace with
    | none =>
      rw [hls0] at hls2
      simp at hls2
    | some q1 =>
      refine ⟨variantNodesCore .apartmentBuy m (formatFixed2 q1) "", ?_⟩
      simp only [variantNodes]
      rw [show fmtReq m.livingSpace = Except.ok (formatFixed2 q1) from by rw [hls0]; rfl]
      rfl
  case livingBuySite =>
    simp only [requiredOk, requiredFields, List.all_cons, List.all_nil,
      Bool.and_eq_true] at h
    obtain ⟨-, -, -, hpa, -⟩ := h
    have hpa2 : (m.plotArea.map PyVal.vRat).isSome = true := hpa
    cases hpa0 : m.plotArea with
    | none =>
      rw [hpa0] at hpa2
      simp at hpa2
    | some q2 =>
      refine ⟨variantNodesCore .livingBuySite m "" (formatFixed2 q2), ?_⟩
      simp only [variantNodes]
      rw [show fmtReq m.plotArea = Except.ok (formatFixed2 q2) from by rw [hpa0]; rfl]
      rfl
  case tradeSite =>
    simp only [requiredOk, requiredFields, List.all_cons, List.all_nil,
      Bool.and_eq_true] at h
    obtain ⟨-, -, -, hpa, -⟩ := h
    have hpa2 : (m.plotArea.map PyVal.vRat).isSome = true := hpa
    cases hpa0 : m.plotArea with
    | none =>
      rw [hpa0] at hpa2
      simp at hpa2
    | some q2 =>
      refine ⟨variantNodesCore .tradeSite m "" (formatFixed2 q2), ?_⟩
      simp only [variantNodes]
      rw [show fmtReq m.plotArea = Except.ok (formatFixed2 q2) from by rw [hpa0]; rfl]
      rfl

/-- Claim C8 (amended): the Schema Builder returns null (no document,
no exception) exactly when the mapping's resolved type does not match
the selected variant's expected value; when the type matches, it
raises exactly when a required field of the variant is absent or null,
or when a present, non-empty latitude or longitude fails to parse as a
float (the coordinate conversion runs inside the builder's `try` and a
parse failure is re-raised as `TypeError`, so a missing required field
is not the only raising condition). -/
theorem builder_null_and_error_conditions (v : PropVariant) (m : Mapping) :
    (buildIsNull (build_xml v m) = true ↔ m.type ≠ some (variantTag v)) ∧
    (buildIsErr (build_xml v m) = true ↔
      (m.type = some (variantTag v) ∧
        (requiredOk v m = false ∨ floatParseFails m.latitude = true ∨
          floatParseFails m.longitude = true))) := by
  by_cases hty : m.type ≠ some (variantTag v)
  · have hb : build_xml v m = Except.ok none := by
      rw [build_xml, if_pos hty]
    rw [hb]
    refine ⟨⟨fun _ => hty, fun _ => rfl⟩, ⟨fun hfalse => ?_, fun hr => absurd hr.1 hty⟩⟩
    simp [buildIsErr] at hfalse
  · have hty2 : m.type = some (variantTag v) := not_not.mp hty
    cases hall : requiredOk v m with
    | false =>
      have hverr : validate_required_fields m (requiredFields v) = .error PyErr.valueError :=
        validate_err m (requiredFields v) hall
      have hb : build_xml v m = Except.error PyErr.valueError := by
        rw [build_xml, if_neg hty, hverr]
      rw [hb]
      constructor
      · constructor
        · intro hfalse
          simp [buildIsNull] at hfalse
        · intro hr
          exact absurd hty2 hr
      · constructor
        · intro _
          exact ⟨hty2, Or.inl rfl⟩
        · intro _
          rfl
    | true =>
      have hvok : validate_required_fields m (requiredFields v) = .ok () :=
        (validate_ok_iff m (requiredFields v)).mpr hall
      cases hlat : pyFloatIfTruthy m.latitude with
      | error e =>
        have hfail : floatParseFails m.latitude = true :=
          pyFloatIfTruthy_error_fails m.latitude e hlat
        have hcomm : add_common_elements m = Except.error e := by
          simp only [add_common_elements]
          rw [hlat]
          rfl
        have hb : build_xml v m = Except.error PyErr.typeError := by
          rw [build_xml, if_neg hty, hvok]
          show (match (do
              let common ← add_common_elements m
              let rest ← variantNodes v m
              Except.ok (common ++ rest) : Except PyErr (List XmlNode)) with
            | .error _ => Except.error PyErr.typeError
            | .ok children => Except.ok (some (XmlNode.elem (variantTag v) none children))) =
            Except.error PyErr.typeError
          rw [hcomm]
          rfl
        rw [hb]
        constructor
        · constructor
          · intro hfalse
            simp [buildIsNull] at hfalse
          · intro hr
            exact absurd hty2 hr
        · constructor
          · intro _
            exact ⟨hty2, Or.inr (Or.inl hfail)⟩
          · intro _
            rfl
      | ok lat =>
        have hlat0 : floatParseFails m.latitude = false :=
          pyFloatIfTruthy_ok_not_fails m.latitude lat hlat
        cases hlon : pyFloatIfTruthy m.longitude with
        | error e =>
          have hfail : floatParseFails m.longitude = true :=
            pyFloatIfTruthy_error_fails m.longitude e hlon
          have hcomm : add_common_elements m = Except.error e := by
            simp only [add_common_elements]
            rw [hlat, hlon]
            rfl
          have hb : build_xml v m = Except.error PyErr.typeError := by
            rw [build_xml, if_neg hty, hvok]
            show (match (do
                let common ← add_common_elements m
                let rest ← variantNodes v m
                Except.ok (common ++ rest) : Except PyErr (List XmlNode)) with
              | .error _ => Except.error PyErr.typeError
              | .ok children => Except.ok (some (XmlNode.elem (variantTag v) none children))) =
              Except.error PyErr.typeError
            rw [hcomm]
            rfl
          rw [hb]
          constructor
          · constructor
            · intro hfalse
              simp [buildIsNull] at hfalse
            · intro hr
              exact absurd hty2 hr
          · constructor
            · intro _
              exact ⟨hty2, Or.inr (Or.inr hfail)⟩
            · intro _
              rfl
        | ok lon =>
          have hlon0 : floatParseFails m.longitude = false :=
            pyFloatIfTruthy_ok_not_fails m.longitude lon hlon
          have hcomm : add_common_elements m = Except.ok (commonNodes m lat lon) := by
            simp only [add_common_elements]
            rw [hlat, hlon]
            rfl
          obtain ⟨rest, hrest⟩ := variantNodes_ok_of_required v m hall
          have hb : build_xml v m =
              Except.ok (some (XmlNode.elem (variantTag v) none
                (commonNodes m lat lon ++ rest))) := by
            rw [build_xml, if_neg hty, hvok]
            show (match (do
                let common ← add_common_elements m
                let rest ← variantNodes v m
                Except.ok (common ++ rest) : Except PyErr (List XmlNode)) with
              | .error _ => Except.error PyErr.typeError
              | .ok children => Except.ok (some (XmlNode.elem (variantTag v) none children))) =
              Except.ok (some (XmlNode.elem (variantTag v) none (commonNodes m lat lon ++ rest)))
            rw [hcomm, hrest]
            rfl
          rw [hb]
          constructor
          · constructor
            · intro hfalse
              simp [buildIsNull] at hfalse
            · intro hr
              exact absurd hty2 hr
          · constructor
            · intro hfalse
              simp [buildIsErr] at hfalse
            · rintro ⟨-, hor⟩
              rcases hor with hor | hor | hor
              · cases hor
              · rw [hlat0] at hor
                cases hor
              · rw [hlon0] at hor
                cases hor

/-- Claim C8 counterexample to "raises exactly when a required field
is missing": the mapping `m8cex` has the matching type `houseBuy` and
every required field present, yet `build_xml` raises (its latitude
`"abc"` fails float conversion inside the builder); `m8miss`, with a
missing required `livingSpace`, raises as well, distinct from the null
return of the wrong-type guard. -/
theorem builder_error_without_missing_required_cex :
    m8cex.type = some "houseBuy" ∧
    requiredOk PropVariant.houseBuy m8cex = true ∧
    buildIsErr (build_xml PropVariant.houseBuy m8cex) = true ∧
    requiredOk PropVariant.houseBuy m8miss = false ∧
    buildIsErr (build_xml PropVariant.houseBuy m8miss) = true ∧
    buildIsNull (build_xml PropVariant.houseBuy m8miss) = false := by
  refine ⟨rfl, by decide, by decide, by decide, by decide, by decide⟩
